import Mathlib

/-!
Shallow embedding of the marbles-chaincode repository
(src/hyperledger/part5/part5_riseHackathonChainCode.go).

The source file holds two revisions of the same chaincode:
the first (lines 1-453) persists SmartPay composites via initSmartPay and
uses float64 fields; the second (lines 454-802) persists simple payments via
initPayment and uses int fields.  Shared functions (Init, read, Delete,
Write) are textually identical in both revisions and are embedded once.

Go machine types are modelled as follows: strings as Lean String, byte
slices as List Char, int as Int (overflow ignored, far from the inputs
exercised), float64 as Dec, normalized finite decimals covering exactly the values the
code parses and prints (strconv.ParseFloat / FormatFloat 'f' -1).
-/

/-- Bytes of a Go byte slice; every value stored by this chaincode is text. -/
abbrev Bytes := List Char

def lit (s : String) : Bytes := s.toList

/-- ASCII lowercasing of one character (strings.ToLower, ASCII fragment —
the chaincode only feeds it ASCII identifiers). -/
def charLower (c : Char) : Char :=
  if 'A' ≤ c ∧ c ≤ 'Z' then Char.ofNat (c.toNat + 32) else c

/-- strings.ToLower (ASCII fragment). -/
def toLowerGo (s : String) : String :=
  String.mk (s.toList.map charLower)

/-- Longest prefix of decimal digits, and the remainder. -/
def takeDigits : List Char → (List Char × List Char)
  | [] => ([], [])
  | c :: cs =>
    if '0' ≤ c ∧ c ≤ '9' then
      let (ds, rest) := takeDigits cs
      (c :: ds, rest)
    else ([], c :: cs)

/-- Numeric value of a digit string. -/
def digitsNat (ds : List Char) : Nat :=
  ds.foldl (fun a c => a * 10 + (c.toNat - 48)) 0

/-- strconv.Atoi: optional sign followed by at least one digit
(int64 overflow is not modelled). -/
def atoiGo (s : String) : Option Int :=
  let cs := s.toList
  let (neg, cs1) :=
    match cs with
    | '-' :: r => (true, r)
    | '+' :: r => (false, r)
    | r => (false, r)
  let (ds, rest) := takeDigits cs1
  if ds ≠ [] ∧ rest = [] then
    let n : Int := Int.ofNat (digitsNat ds)
    some (if neg then -n else n)
  else none

/-- A finite decimal value (-1)^neg * mant / 10^exp, kept normalized: no
trailing zeros in the fraction, and zero is ⟨false, 0, 0⟩.  This models the
float64 values the chaincode handles: they all arise from
strconv.ParseFloat on plain decimals and are printed back with
strconv.FormatFloat(f, 'f', -1, 64); two such values are equal as floats
exactly when their normal forms agree (float rounding is not modelled). -/
structure Dec where
  neg : Bool
  mant : Nat
  exp : Nat
deriving DecidableEq

/-- Remove trailing decimal zeros: divide mant by 10 while the exponent
lasts and the mantissa stays divisible. -/
def stripZeros : Nat → Nat → Nat → (Nat × Nat)
  | 0, m, e => (m, e)
  | _, m, 0 => (m, 0)
  | fuel + 1, m, e + 1 =>
    if m % 10 = 0 ∧ m ≠ 0 then stripZeros fuel (m / 10) e else (m, e + 1)

/-- Normalized decimal from sign, mantissa and fraction length. -/
def mkDec (neg : Bool) (m e : Nat) : Dec :=
  if m = 0 then ⟨false, 0, 0⟩
  else
    let (m2, e2) := stripZeros e m e
    ⟨neg, m2, e2⟩

def decZero : Dec := ⟨false, 0, 0⟩

/-- Build a decimal from mantissa digits, fraction length f and a signed
base-10 exponent. -/
def mkDecExp (neg : Bool) (m f : Nat) (eneg : Bool) (e : Nat) : Dec :=
  if eneg then mkDec neg m (f + e)
  else if e ≤ f then mkDec neg m (f - e)
  else mkDec neg (m * 10 ^ (e - f)) 0

/-- strconv.ParseFloat(s, 64) on the plain-decimal fragment the chaincode
uses: optional sign, digits with an optional fraction, optional exponent.
(Go additionally accepts Inf/NaN/hex floats and rounds to float64; none of
that is exercised by the code under proof.) -/
def parseFloatGo (s : String) : Option Dec :=
  let cs := s.toList
  let (neg, cs1) :=
    match cs with
    | '-' :: r => (true, r)
    | '+' :: r => (false, r)
    | r => (false, r)
  let (ip, cs2) := takeDigits cs1
  let (fp, cs3) :=
    match cs2 with
    | '.' :: r => takeDigits r
    | r => ([], r)
  if ip = [] ∧ fp = [] then none
  else
    let m := digitsNat ip * 10 ^ fp.length + digitsNat fp
    match cs3 with
    | [] => some (mkDec neg m fp.length)
    | 'e' :: r | 'E' :: r =>
      let (eneg, r1) :=
        match r with
        | '-' :: t => (true, t)
        | '+' :: t => (false, t)
        | t => (false, t)
      let (eds, r2) := takeDigits r1
      if eds ≠ [] ∧ r2 = [] then
        some (mkDecExp neg m fp.length eneg (digitsNat eds))
      else none
    | _ => none

def natDigitsAux : Nat → Nat → List Char
  | 0, _ => []
  | _, 0 => []
  | fuel + 1, n => natDigitsAux fuel (n / 10) ++ [Char.ofNat (48 + n % 10)]

/-- Decimal rendering of a natural number. -/
def natStr (n : Nat) : String :=
  if n = 0 then "0" else String.mk (natDigitsAux 40 n)

/-- strconv.Itoa. -/
def intStr (i : Int) : String :=
  (if i < 0 then "-" else "") ++ natStr i.natAbs

/-- strconv.FormatFloat(f, 'f', -1, 64) on finite decimals: shortest plain
decimal form. -/
def formatFloatGo (d : Dec) : String :=
  let sign := if d.neg ∧ d.mant ≠ 0 then "-" else ""
  if d.exp = 0 then sign ++ natStr d.mant
  else
    let ip := d.mant / 10 ^ d.exp
    let fr := d.mant % 10 ^ d.exp
    let ds := if fr = 0 then [] else natDigitsAux 40 fr
    let fds := List.replicate (d.exp - ds.length) '0' ++ ds
    sign ++ natStr ip ++ "." ++ String.mk fds

/-! ## JSON values and encoding/json behaviour -/

inductive Json where
  | null
  | bool (b : Bool)
  | num (d : Dec)
  | str (s : List Char)
  | arr (elems : List Json)
  | obj (fields : List (List Char × Json))

def skipWs : List Char → List Char
  | [] => []
  | c :: cs => if c = ' ' ∨ c = '\t' ∨ c = '\n' ∨ c = '\r' then skipWs cs else c :: cs

def hexVal (c : Char) : Option Nat :=
  if '0' ≤ c ∧ c ≤ '9' then some (c.toNat - 48)
  else if 'a' ≤ c ∧ c ≤ 'f' then some (c.toNat - 87)
  else if 'A' ≤ c ∧ c ≤ 'F' then some (c.toNat - 55)
  else none

/-- Body of a JSON string after the opening quote: characters up to the
closing quote, with the standard escapes. -/
def parseStringBody : Nat → List Char → Option (List Char × List Char)
  | 0, _ => none
  | _, [] => none
  | fuel + 1, c :: cs =>
    if c = '"' then some ([], cs)
    else if c = '\\' then
      match cs with
      | [] => none
      | e :: cs2 =>
        if e = 'u' then
          match cs2 with
          | h1 :: h2 :: h3 :: h4 :: cs3 =>
            match hexVal h1, hexVal h2, hexVal h3, hexVal h4 with
            | some v1, some v2, some v3, some v4 =>
              match parseStringBody fuel cs3 with
              | some (s, rest) =>
                some (Char.ofNat (((v1 * 16 + v2) * 16 + v3) * 16 + v4) :: s, rest)
              | none => none
            | _, _, _, _ => none
          | _ => none
        else
          let ec : Option Char :=
            if e = '"' then some '"'
            else if e = '\\' then some '\\'
            else if e = '/' then some '/'
            else if e = 'b' then some (Char.ofNat 8)
            else if e = 'f' then some (Char.ofNat 12)
            else if e = 'n' then some '\n'
            else if e = 'r' then some '\r'
            else if e = 't' then some '\t'
            else none
          match ec with
          | some d =>
            match parseStringBody fuel cs2 with
            | some (s, rest) => some (d :: s, rest)
            | none => none
          | none => none
    else if c.toNat < 32 then none
    else
      match parseStringBody fuel cs with
      | some (s, rest) => some (c :: s, rest)
      | none => none

/-- A JSON number (RFC 8259 grammar: no leading zeros, fraction and exponent
parts must be non-empty when present). -/
def parseJsonNumber (cs : List Char) : Option (Dec × List Char) :=
  let (neg, cs1) :=
    match cs with
    | '-' :: r => (true, r)
    | r => (false, r)
  let (ip, cs2) := takeDigits cs1
  if ip = [] then none
  else if 1 < ip.length ∧ ip.headD '0' = '0' then none
  else
    let (fp, cs3, hasFrac) :=
      match cs2 with
      | '.' :: r =>
        let (d, rest) := takeDigits r
        (d, rest, true)
      | r => (([] : List Char), r, false)
    if hasFrac ∧ fp = [] then none
    else
      let m := digitsNat ip * 10 ^ fp.length + digitsNat fp
      match cs3 with
      | 'e' :: r | 'E' :: r =>
        let (eneg, r1) :=
          match r with
          | '-' :: t => (true, t)
          | '+' :: t => (false, t)
          | t => (false, t)
        let (eds, r2) := takeDigits r1
        if eds = [] then none
        else some (mkDecExp neg m fp.length eneg (digitsNat eds), r2)
      | rest => some (mkDec neg m fp.length, rest)

mutual

/-- One JSON value and the remaining input. -/
def parseVal : Nat → List Char → Option (Json × List Char)
  | 0, _ => none
  | fuel + 1, cs =>
    match skipWs cs with
    | [] => none
    | c :: rest =>
      if c = '"' then
        match parseStringBody (rest.length + 1) rest with
        | some (s, r) => some (Json.str s, r)
        | none => none
      else if c = '[' then
        match skipWs rest with
        | ']' :: r => some (Json.arr [], r)
        | r2 =>
          match parseElems fuel r2 with
          | some (xs, r) => some (Json.arr xs, r)
          | none => none
      else if c = '{' then
        match skipWs rest with
        | '}' :: r => some (Json.obj [], r)
        | r2 =>
          match parseFields fuel r2 with
          | some (fs, r) => some (Json.obj fs, r)
          | none => none
      else if c = 'n' then
        match rest with
        | 'u' :: 'l' :: 'l' :: r => some (Json.null, r)
        | _ => none
      else if c = 't' then
        match rest with
        | 'r' :: 'u' :: 'e' :: r => some (Json.bool true, r)
        | _ => none
      else if c = 'f' then
        match rest with
        | 'a' :: 'l' :: 's' :: 'e' :: r => some (Json.bool false, r)
        | _ => none
      else
        match parseJsonNumber (c :: rest) with
        | some (q, r) => some (Json.num q, r)
        | none => none

/-- Comma-separated array elements up to the closing bracket. -/
def parseElems : Nat → List Char → Option (List Json × List Char)
  | 0, _ => none
  | fuel + 1, cs =>
    match parseVal fuel cs with
    | none => none
    | some (v, r) =>
      match skipWs r with
      | ',' :: r2 =>
        match parseElems fuel r2 with
        | some (xs, r3) => some (v :: xs, r3)
        | none => none
      | ']' :: r2 => some ([v], r2)
      | _ => none

/-- Comma-separated object members up to the closing brace. -/
def parseFields : Nat → List Char → Option (List (List Char × Json) × List Char)
  | 0, _ => none
  | fuel + 1, cs =>
    match skipWs cs with
    | '"' :: r =>
      match parseStringBody (r.length + 1) r with
      | none => none
      | some (k, r2) =>
        match skipWs r2 with
        | ':' :: r3 =>
          match parseVal fuel r3 with
          | none => none
          | some (v, r4) =>
            match skipWs r4 with
            | ',' :: r5 =>
              match parseFields fuel r5 with
              | some (fs, r6) => some ((k, v) :: fs, r6)
              | none => none
            | '}' :: r5 => some ([(k, v)], r5)
            | _ => none
        | _ => none
    | _ => none

end

/-- Full-input JSON parse; none exactly when encoding/json's validity scan
rejects the bytes. -/
def parseJsonTop (bs : Bytes) : Option Json :=
  match parseVal (bs.length + 1) bs with
  | some (v, rest) => if skipWs rest = [] then some v else none
  | none => none

/-- All elements of a JSON array, provided every one is a string. -/
def jsonStrs : List Json → Option (List String)
  | [] => some []
  | Json.str s :: rest =>
    match jsonStrs rest with
    | some l => some (String.mk s :: l)
    | none => none
  | _ :: _ => none

/-- json.Unmarshal(bytes, &sliceOfString) with the chaincode's
error-ignoring call pattern: on any failure the destination keeps its nil
zero value, i.e. the empty list. -/
def unmarshalStringList (bs : Bytes) : List String :=
  match parseJsonTop bs with
  | some (Json.arr xs) => (jsonStrs xs).getD []
  | _ => []

/-- A JSON string literal for an id (the chaincode's ids carry no characters
that Go's encoder would escape; escaping is therefore not modelled). -/
def quoteStr (s : String) : Bytes := '"' :: s.toList ++ ['"']

def marshalRest : List String → Bytes
  | [] => [']']
  | x :: xs => ',' :: quoteStr x ++ marshalRest xs

/-- json.Marshal of the chaincode's index slices.  A nil slice marshals to
null in Go; Lean's List cannot distinguish nil from an emptied slice, so the
empty list is rendered null (both forms unmarshal back to the empty list,
which is all the chaincode observes). -/
def marshalStringList : List String → Bytes
  | [] => lit "null"
  | x :: xs => '[' :: quoteStr x ++ marshalRest xs

/-! ## The chaincode stub (external key-value ledger collaborator)

The world state is an association list written most-recent-first.  The
fail* fields select the keys on which the corresponding stub primitive
fails, modelling the ledger's possible I/O failures deterministically. -/

structure StubState where
  state : List (String × Bytes)
  failGet : List String
  failPut : List String
  failDel : List String
deriving DecidableEq

def lookupState : List (String × Bytes) → String → Option Bytes
  | [], _ => none
  | (k2, v) :: rest, k => if k2 = k then some v else lookupState rest k

/-- stub.GetState: in fabric 0.6 an absent key yields empty bytes and no
error; failures give a generic error. -/
def stubGet (st : StubState) (k : String) : Except String Bytes :=
  if st.failGet.contains k then Except.error "GetState failed"
  else Except.ok ((lookupState st.state k).getD [])

def stubPut (st : StubState) (k : String) (v : Bytes) : Except String StubState :=
  if st.failPut.contains k then Except.error "PutState failed"
  else Except.ok { st with state := (k, v) :: st.state }

/-- stub.DelState: deleting an absent key succeeds. -/
def stubDel (st : StubState) (k : String) : Except String StubState :=
  if st.failDel.contains k then Except.error "DelState failed"
  else Except.ok { st with state := st.state.filter (fun p => p.1 ≠ k) }

/-- Outcome of a chaincode method: Go's ([]byte, error) return, plus the
run-time panic a Go slice access out of range raises. -/
inductive GoErr where
  | msg (s : String)
  | oob
deriving DecidableEq

deriving instance DecidableEq for Except

abbrev GoOut := Except GoErr (Option Bytes)

/-- args[i] in Go: the value, or an index-out-of-range panic. -/
def argAt (args : List String) (i : Nat) : Except GoErr String :=
  match args[i]? with
  | some a => Except.ok a
  | none => Except.error GoErr.oob

def smartPayIndexStr : String := "_smartpayindex"

def paymentIndexStr : String := "_paymentindex"

def emptyStub : StubState := ⟨[], [], [], []⟩

/-! ## Functions shared verbatim by both revisions of the chaincode -/

namespace Chain

/-- Init (both revisions): expects one integer argument, writes the test
key abc, then resets both indices to the marshalled empty slice. -/
def Init (st : StubState) (args : List String) : GoOut × StubState :=
  match args with
  | [a0] =>
    match atoiGo a0 with
    | none => (Except.error (GoErr.msg "Expecting integer value for asset holding"), st)
    | some aval =>
      match stubPut st "abc" (lit (intStr aval)) with
      | Except.error m => (Except.error (GoErr.msg m), st)
      | Except.ok st1 =>
        match stubPut st1 smartPayIndexStr (marshalStringList []) with
        | Except.error m => (Except.error (GoErr.msg m), st1)
        | Except.ok st2 =>
          match stubPut st2 paymentIndexStr (marshalStringList []) with
          | Except.error m => (Except.error (GoErr.msg m), st2)
          | Except.ok st3 => (Except.ok none, st3)
  | _ => (Except.error (GoErr.msg "Incorrect number of arguments. Expecting 1"), st)

/-- read (both revisions): passthrough GetState. -/
def read (st : StubState) (args : List String) : GoOut × StubState :=
  match args with
  | [name] =>
    match stubGet st name with
    | Except.error _ =>
      (Except.error (GoErr.msg ("\x7b\"Error\":\"Failed to get state for " ++ name ++ "\"\x7d")), st)
    | Except.ok v => (Except.ok (some v), st)
  | _ => (Except.error (GoErr.msg "Incorrect number of arguments. Expecting name of the var to query"), st)

/-- The in-place removal loop of Delete: scan for the first element equal
to name, splice it out, break. -/
def removeFirstGo : List String → String → List String
  | [], _ => []
  | x :: xs, name => if x = name then xs else x :: removeFirstGo xs name

/-- Delete (both revisions): DelState the key, then read the SMARTPAY index,
remove the first occurrence of the key from it, and persist it; the error
of that final PutState is assigned and then dropped (the function returns
nil, nil regardless).  The payment index is never touched. -/
def Delete (st : StubState) (args : List String) : GoOut × StubState :=
  match args with
  | [name] =>
    match stubDel st name with
    | Except.error _ => (Except.error (GoErr.msg "Failed to delete state"), st)
    | Except.ok st1 =>
      match stubGet st1 smartPayIndexStr with
      | Except.error _ => (Except.error (GoErr.msg "Failed to get SmartPayTransaction index"), st1)
      | Except.ok bytes =>
        let smartPayIndex := unmarshalStringList bytes
        let smartPayIndex := removeFirstGo smartPayIndex name
        match stubPut st1 smartPayIndexStr (marshalStringList smartPayIndex) with
        | Except.error _ => (Except.ok none, st1)
        | Except.ok st2 => (Except.ok none, st2)
  | _ => (Except.error (GoErr.msg "Incorrect number of arguments. Expecting 1"), st)

/-- Write (both revisions): raw PutState. -/
def Write (st : StubState) (args : List String) : GoOut × StubState :=
  match args with
  | [name, value] =>
    match stubPut st name (lit value) with
    | Except.error m => (Except.error (GoErr.msg m), st)
    | Except.ok st1 => (Except.ok none, st1)
  | _ => (Except.error (GoErr.msg "Incorrect number of arguments. Expecting 2. name of the variable and value to set"), st)

/-- Query (both revisions): the only query command is read. -/
def Query (st : StubState) (fn : String) (args : List String) : GoOut × StubState :=
  if fn = "read" then read st args
  else (Except.error (GoErr.msg "Received unknown function query"), st)

end Chain

/-! ## Struct decoding (json.Unmarshal into the record structs)

Go's decoder matches object keys to field tags case-insensitively (no two
tags here collide case-insensitively, so exact-match preference is moot);
an absent or null member leaves the field at its zero value; a member of
the wrong type makes the whole Unmarshal fail, which every caller in this
chaincode ignores, leaving the zero-valued struct. -/

def lowerChars (s : List Char) : List Char := s.map charLower

def jsonField : List (List Char × Json) → String → Option Json
  | [], _ => none
  | (k, v) :: rest, name =>
    if lowerChars k = lowerChars name.toList then some v else jsonField rest name

def getStrField (fs : List (List Char × Json)) (name : String) : Option String :=
  match jsonField fs name with
  | none => some ""
  | some Json.null => some ""
  | some (Json.str s) => some (String.mk s)
  | some _ => none

def getDecField (fs : List (List Char × Json)) (name : String) : Option Dec :=
  match jsonField fs name with
  | none => some decZero
  | some Json.null => some decZero
  | some (Json.num d) => some d
  | some _ => none

def getIntField (fs : List (List Char × Json)) (name : String) : Option Int :=
  match jsonField fs name with
  | none => some 0
  | some Json.null => some 0
  | some (Json.num d) =>
    if d.exp = 0 then some (if d.neg then -(Int.ofNat d.mant) else Int.ofNat d.mant) else none
  | some _ => none

/-! ## First revision (source lines 1-453): SmartPay composites -/

namespace SmartPayCC

structure PaymentTransaction where
  PaymentTransID : String
  DrawerID : String
  PayeeID : String
  Amount : Dec
  Currency : String
deriving DecidableEq

structure RemittanceTransaction where
  RemittanceTransID : String
  SourceID : String
  SourceCurrency : String
  DestinationID : String
  DestinationCurrency : String
  Amount : Dec
  ExchangeRate : Dec
deriving DecidableEq

structure LendingTransacation where
  LendingTransID : String
  LendorID : String
  BorrowerID : String
  LoanAmount : Dec
  Currency : String
  LoanRate : Dec
  LoanReturnDate : String
deriving DecidableEq

structure SmartPayTransaction where
  SmartPayTransID : String
  PaymentTrans : PaymentTransaction
  RemitTrans : RemittanceTransaction
  LendTrans : LendingTransacation
deriving DecidableEq

def zeroPayment : PaymentTransaction := ⟨"", "", "", decZero, ""⟩

def zeroRemittance : RemittanceTransaction := ⟨"", "", "", "", "", decZero, decZero⟩

def zeroLending : LendingTransacation := ⟨"", "", "", decZero, "", decZero, ""⟩

def zeroSmartPay : SmartPayTransaction := ⟨"", zeroPayment, zeroRemittance, zeroLending⟩

def decodePaymentJson (j : Json) : Option PaymentTransaction :=
  match j with
  | Json.null => some zeroPayment
  | Json.obj fs => do
    let a ← getStrField fs "paymentTransID"
    let b ← getStrField fs "drawerID"
    let c ← getStrField fs "payeeID"
    let d ← getDecField fs "amount"
    let e ← getStrField fs "currency"
    pure ⟨a, b, c, d, e⟩
  | _ => none

def decodeRemittanceJson (j : Json) : Option RemittanceTransaction :=
  match j with
  | Json.null => some zeroRemittance
  | Json.obj fs => do
    let a ← getStrField fs "remittanceTransID"
    let b ← getStrField fs "sourceID"
    let c ← getStrField fs "sourceCurrency"
    let d ← getStrField fs "destinationID"
    let e ← getStrField fs "destinationCurrency"
    let f ← getDecField fs "amount"
    let g ← getDecField fs "ExchangeRate"
    pure ⟨a, b, c, d, e, f, g⟩
  | _ => none

def decodeLendingJson (j : Json) : Option LendingTransacation :=
  match j with
  | Json.null => some zeroLending
  | Json.obj fs => do
    let a ← getStrField fs "lendingTransID"
    let b ← getStrField fs "lendorID"
    let c ← getStrField fs "borrowerID"
    let d ← getDecField fs "loanAmount"
    let e ← getStrField fs "currency"
    let f ← getDecField fs "loanRate"
    let g ← getStrField fs "loanReturnDate"
    pure ⟨a, b, c, d, e, f, g⟩
  | _ => none

def decodeSmartPayJson (j : Json) : Option SmartPayTransaction :=
  match j with
  | Json.null => some zeroSmartPay
  | Json.obj fs => do
    let tid ← getStrField fs "smartPayTransID"
    let p ← match jsonField fs "paymentTrans" with
            | none => some zeroPayment
            | some pj => decodePaymentJson pj
    let r ← match jsonField fs "remitTrans" with
            | none => some zeroRemittance
            | some rj => decodeRemittanceJson rj
    let l ← match jsonField fs "lentTrans" with
            | none => some zeroLending
            | some lj => decodeLendingJson lj
    pure ⟨tid, p, r, l⟩
  | _ => none

/-! Go's json.Unmarshal populates a struct member by member: a member whose
value has the wrong type leaves its field untouched (the decoder saves the
type error and continues with the remaining members), a null member is a
no-op, an unknown key is ignored, and a later duplicate member overwrites
an earlier one.  The apply*Members folds below model this, so a caller
that ignores the returned error sees the partially populated struct. -/

def setPaymentField (r : PaymentTransaction) (k : List Char) (v : Json) : PaymentTransaction :=
  if lowerChars k = lowerChars (lit "paymentTransID") then
    match v with
    | Json.str s => { r with PaymentTransID := String.mk s }
    | _ => r
  else if lowerChars k = lowerChars (lit "drawerID") then
    match v with
    | Json.str s => { r with DrawerID := String.mk s }
    | _ => r
  else if lowerChars k = lowerChars (lit "payeeID") then
    match v with
    | Json.str s => { r with PayeeID := String.mk s }
    | _ => r
  else if lowerChars k = lowerChars (lit "amount") then
    match v with
    | Json.num d => { r with Amount := d }
    | _ => r
  else if lowerChars k = lowerChars (lit "currency") then
    match v with
    | Json.str s => { r with Currency := String.mk s }
    | _ => r
  else r

def applyPaymentMembers : PaymentTransaction → List (List Char × Json) → PaymentTransaction
  | r, [] => r
  | r, (k, v) :: rest => applyPaymentMembers (setPaymentField r k v) rest

def setRemittanceField (r : RemittanceTransaction) (k : List Char) (v : Json) :
    RemittanceTransaction :=
  if lowerChars k = lowerChars (lit "remittanceTransID") then
    match v with
    | Json.str s => { r with RemittanceTransID := String.mk s }
    | _ => r
  else if lowerChars k = lowerChars (lit "sourceID") then
    match v with
    | Json.str s => { r with SourceID := String.mk s }
    | _ => r
  else if lowerChars k = lowerChars (lit "sourceCurrency") then
    match v with
    | Json.str s => { r with SourceCurrency := String.mk s }
    | _ => r
  else if lowerChars k = lowerChars (lit "destinationID") then
    match v with
    | Json.str s => { r with DestinationID := String.mk s }
    | _ => r
  else if lowerChars k = lowerChars (lit "destinationCurrency") then
    match v with
    | Json.str s => { r with DestinationCurrency := String.mk s }
    | _ => r
  else if lowerChars k = lowerChars (lit "amount") then
    match v with
    | Json.num d => { r with Amount := d }
    | _ => r
  else if lowerChars k = lowerChars (lit "ExchangeRate") then
    match v with
    | Json.num d => { r with ExchangeRate := d }
    | _ => r
  else r

def applyRemittanceMembers : RemittanceTransaction → List (List Char × Json) →
    RemittanceTransaction
  | r, [] => r
  | r, (k, v) :: rest => applyRemittanceMembers (setRemittanceField r k v) rest

def setLendingField (r : LendingTransacation) (k : List Char) (v : Json) : LendingTransacation :=
  if lowerChars k = lowerChars (lit "lendingTransID") then
    match v with
    | Json.str s => { r with LendingTransID := String.mk s }
    | _ => r
  else if lowerChars k = lowerChars (lit "lendorID") then
    match v with
    | Json.str s => { r with LendorID := String.mk s }
    | _ => r
  else if lowerChars k = lowerChars (lit "borrowerID") then
    match v with
    | Json.str s => { r with BorrowerID := String.mk s }
    | _ => r
  else if lowerChars k = lowerChars (lit "loanAmount") then
    match v with
    | Json.num d => { r with LoanAmount := d }
    | _ => r
  else if lowerChars k = lowerChars (lit "currency") then
    match v with
    | Json.str s => { r with Currency := String.mk s }
    | _ => r
  else if lowerChars k = lowerChars (lit "loanRate") then
    match v with
    | Json.num d => { r with LoanRate := d }
    | _ => r
  else if lowerChars k = lowerChars (lit "loanReturnDate") then
    match v with
    | Json.str s => { r with LoanReturnDate := String.mk s }
    | _ => r
  else r

def applyLendingMembers : LendingTransacation → List (List Char × Json) → LendingTransacation
  | r, [] => r
  | r, (k, v) :: rest => applyLendingMembers (setLendingField r k v) rest

def setSmartPayField (r : SmartPayTransaction) (k : List Char) (v : Json) : SmartPayTransaction :=
  if lowerChars k = lowerChars (lit "smartPayTransID") then
    match v with
    | Json.str s => { r with SmartPayTransID := String.mk s }
    | _ => r
  else if lowerChars k = lowerChars (lit "paymentTrans") then
    match v with
    | Json.obj fs => { r with PaymentTrans := applyPaymentMembers r.PaymentTrans fs }
    | _ => r
  else if lowerChars k = lowerChars (lit "remitTrans") then
    match v with
    | Json.obj fs => { r with RemitTrans := applyRemittanceMembers r.RemitTrans fs }
    | _ => r
  else if lowerChars k = lowerChars (lit "lentTrans") then
    match v with
    | Json.obj fs => { r with LendTrans := applyLendingMembers r.LendTrans fs }
    | _ => r
  else r

def applySmartPayMembers : SmartPayTransaction → List (List Char × Json) → SmartPayTransaction
  | r, [] => r
  | r, (k, v) :: rest => applySmartPayMembers (setSmartPayField r k v) rest

/-- json.Unmarshal(bytes, &SmartPayTransaction{}) with the returned error
ignored, as in initSmartPay's existence check: scan-invalid bytes or a
non-object value leave the zero struct; an object is applied member by
member as Go's decoder does, so fields around a type-mismatched member are
still populated. -/
def unmarshalSmartPay (bs : Bytes) : SmartPayTransaction :=
  match parseJsonTop bs with
  | some (Json.obj fs) => applySmartPayMembers zeroSmartPay fs
  | _ => zeroSmartPay

/-- The values initSmartPay extracts from its argument list. -/
structure SmartPayFields where
  ptransID : String
  drawerID : String
  payeeID : String
  pAmount : Dec
  currency : String
  rtransID : String
  sourceID : String
  sourceCurrency : String
  destinationID : String
  destinationCurrency : String
  rAmount : Dec
  exchangeRate : Dec
  ltransID : String
  lendorID : String
  borrowerID : String
  loanAmount : Dec
  lcurrency : String
  loanRate : Dec
  loanReturnDate : String
  smartPayID : String
deriving DecidableEq

/-- The argument-count check and per-argument sanitation of initSmartPay
(source lines 284-397), in source order: the only count check is
len(args) < 15, after which positions 0..19 are accessed unconditionally
(argAt reports the Go panic for positions past the end). -/
def validateSmartPay (args : List String) : Except GoErr SmartPayFields :=
  if args.length < 15 then Except.error (GoErr.msg "Incorrect number of arguments. Expecting 15")
  else
  match argAt args 0 with
  | Except.error e => Except.error e
  | Except.ok a0 =>
  if a0.length ≤ 0 then Except.error (GoErr.msg "1st argument must be a non-empty string")
  else
  match argAt args 1 with
  | Except.error e => Except.error e
  | Except.ok a1 =>
  if a1.length ≤ 0 then Except.error (GoErr.msg "2nd argument must be a non-empty string")
  else
  match argAt args 2 with
  | Except.error e => Except.error e
  | Except.ok a2 =>
  if a2.length ≤ 0 then Except.error (GoErr.msg "3rd argument must be a non-empty string")
  else
  match argAt args 3 with
  | Except.error e => Except.error e
  | Except.ok a3 =>
  if a3.length ≤ 0 then Except.error (GoErr.msg "4th argument must be a non-empty string")
  else
  match argAt args 4 with
  | Except.error e => Except.error e
  | Except.ok a4 =>
  if a4.length ≤ 0 then Except.error (GoErr.msg "5th argument must be a non-empty string")
  else
  match parseFloatGo a3 with
  | none => Except.error (GoErr.msg "3rd argument must be a Floating Point")
  | some pAmount =>
  match argAt args 5 with
  | Except.error e => Except.error e
  | Except.ok a5 =>
  if a5.length ≤ 0 then Except.error (GoErr.msg "6th argument must be a non-empty string")
  else
  match argAt args 6 with
  | Except.error e => Except.error e
  | Except.ok a6 =>
  if a6.length ≤ 0 then Except.error (GoErr.msg "7th argument must be a non-empty string")
  else
  match argAt args 7 with
  | Except.error e => Except.error e
  | Except.ok a7 =>
  if a7.length ≤ 0 then Except.error (GoErr.msg "8th argument must be a non-empty string")
  else
  match argAt args 8 with
  | Except.error e => Except.error e
  | Except.ok a8 =>
  if a8.length ≤ 0 then Except.error (GoErr.msg "9th argument must be a non-empty string")
  else
  match argAt args 9 with
  | Except.error e => Except.error e
  | Except.ok a9 =>
  if a9.length ≤ 0 then Except.error (GoErr.msg "10th argument must be a non-empty string")
  else
  match argAt args 10 with
  | Except.error e => Except.error e
  | Except.ok a10 =>
  if a10.length ≤ 0 then Except.error (GoErr.msg "11th argument must be a non-empty string")
  else
  match argAt args 11 with
  | Except.error e => Except.error e
  | Except.ok a11 =>
  if a11.length ≤ 0 then Except.error (GoErr.msg "12th argument must be a non-empty string")
  else
  match parseFloatGo a10 with
  | none => Except.error (GoErr.msg "10 argument must be a Floating Point")
  | some rAmount =>
  match parseFloatGo a11 with
  | none => Except.error (GoErr.msg "11 argument must be a Floating Point")
  | some exchangeRate =>
  match argAt args 12 with
  | Except.error e => Except.error e
  | Except.ok a12 =>
  if a12.length ≤ 0 then Except.error (GoErr.msg "13th argument must be a non-empty string")
  else
  match argAt args 13 with
  | Except.error e => Except.error e
  | Except.ok a13 =>
  if a13.length ≤ 0 then Except.error (GoErr.msg "14th argument must be a non-empty string")
  else
  match argAt args 14 with
  | Except.error e => Except.error e
  | Except.ok a14 =>
  if a14.length ≤ 0 then Except.error (GoErr.msg "15th argument must be a non-empty string")
  else
  match argAt args 15 with
  | Except.error e => Except.error e
  | Except.ok a15 =>
  if a15.length ≤ 0 then Except.error (GoErr.msg "16th argument must be a non-empty string")
  else
  match argAt args 16 with
  | Except.error e => Except.error e
  | Except.ok a16 =>
  if a16.length ≤ 0 then Except.error (GoErr.msg "17th argument must be a non-empty string")
  else
  match argAt args 17 with
  | Except.error e => Except.error e
  | Except.ok a17 =>
  if a17.length ≤ 0 then Except.error (GoErr.msg "18th argument must be a non-empty string")
  else
  match argAt args 18 with
  | Except.error e => Except.error e
  | Except.ok a18 =>
  if a18.length ≤ 0 then Except.error (GoErr.msg "19th argument must be a non-empty string")
  else
  match parseFloatGo a15 with
  | none => Except.error (GoErr.msg "15 argument must be a Floating Point")
  | some loanAmount =>
  match parseFloatGo a17 with
  | none => Except.error (GoErr.msg "17 argument must be a Floating Point")
  | some loanRate =>
  match argAt args 19 with
  | Except.error e => Except.error e
  | Except.ok a19 =>
  if a19.length ≤ 0 then Except.error (GoErr.msg "20th argument must be a non-empty string")
  else
  Except.ok ⟨toLowerGo a0, toLowerGo a1, toLowerGo a2, pAmount, toLowerGo a4,
    toLowerGo a5, toLowerGo a6, toLowerGo a7, toLowerGo a8, toLowerGo a9,
    rAmount, exchangeRate,
    toLowerGo a12, toLowerGo a13, toLowerGo a14, loanAmount, toLowerGo a16,
    loanRate, toLowerGo a18, toLowerGo a19⟩

/-- The Payment json string built manually at source line 422. -/
def strPmt (f : SmartPayFields) : Bytes :=
  lit "\x7b\"paymentTransID\": \"" ++ lit f.ptransID
    ++ lit "\", \"drawerID\": \"" ++ lit f.drawerID
    ++ lit "\", \"payeeID\": \"" ++ lit f.payeeID
    ++ lit "\", \"amount\": " ++ lit (formatFloatGo f.pAmount)
    ++ lit ", \"currency\": \"" ++ lit f.currency ++ lit "\"\x7d"

/-- The Remittance json string built at source line 425; note the stray
quote after the ExchangeRate number. -/
def strRem (f : SmartPayFields) : Bytes :=
  lit "\x7b\"remittanceTransID\": \"" ++ lit f.rtransID
    ++ lit "\", \"sourceID\": \"" ++ lit f.sourceID
    ++ lit "\", \"sourceCurrency\": \"" ++ lit f.sourceCurrency
    ++ lit "\", \"destinationID\": \"" ++ lit f.destinationID
    ++ lit "\", \"destinationCurrency\": \"" ++ lit f.destinationCurrency
    ++ lit "\",\"amount\": " ++ lit (formatFloatGo f.rAmount)
    ++ lit ", \"ExchangeRate\": " ++ lit (formatFloatGo f.exchangeRate)
    ++ lit "\"\x7d"

/-- The Lending json string built at source line 428. -/
def strLen (f : SmartPayFields) : Bytes :=
  lit "\x7b\"lendingTransID\": \"" ++ lit f.ltransID
    ++ lit "\", \"lendorID\": \"" ++ lit f.lendorID
    ++ lit "\", \"borrowerID\": \"" ++ lit f.borrowerID
    ++ lit "\", \"loanAmount\": " ++ lit (formatFloatGo f.loanAmount)
    ++ lit ", \"currency\": \"" ++ lit f.lcurrency
    ++ lit "\",\"loanRate\": " ++ lit (formatFloatGo f.loanRate)
    ++ lit ", \"loanReturnDate\": \"" ++ lit f.loanReturnDate ++ lit "\"\x7d"

/-- The SmartPay json string built at source line 431: the three sub-record
strings are interpolated inside quotes, unescaped. -/
def strSmPay (f : SmartPayFields) : Bytes :=
  lit "\x7b\"SmartPayTransID\": \"" ++ lit f.smartPayID
    ++ lit "\", \"PaymentTrans\": \"" ++ strPmt f
    ++ lit "\", \"RemitTrans\": \"" ++ strRem f
    ++ lit "\", \"LendTrans\": \"" ++ strLen f ++ lit "\"\x7d"

/-- initSmartPay (source lines 277-453). -/
def initSmartPay (st : StubState) (args : List String) : GoOut × StubState :=
  match validateSmartPay args with
  | Except.error e => (Except.error e, st)
  | Except.ok f =>
    match stubGet st f.smartPayID with
    | Except.error _ => (Except.error (GoErr.msg "Failed to get Transaction name"), st)
    | Except.ok smartPayAsBytes =>
      let sRes := unmarshalSmartPay smartPayAsBytes
      if sRes.SmartPayTransID = f.smartPayID then
        (Except.error (GoErr.msg "This smartPay Tranaction arleady exists"), st)
      else
        match stubPut st f.smartPayID (strSmPay f) with
        | Except.error m => (Except.error (GoErr.msg m), st)
        | Except.ok st1 =>
          match stubGet st1 smartPayIndexStr with
          | Except.error _ => (Except.error (GoErr.msg "Failed to get marble index"), st1)
          | Except.ok idxBytes =>
            let smartPayIndex := unmarshalStringList idxBytes ++ [f.smartPayID]
            match stubPut st1 smartPayIndexStr (marshalStringList smartPayIndex) with
            | Except.error _ => (Except.ok none, st1)
            | Except.ok st2 => (Except.ok none, st2)

/-- JsonWrite: raw put with a fixed tag prepended. -/
def JsonWrite (st : StubState) (args : List String) : GoOut × StubState :=
  match args with
  | [name, value] =>
    match stubPut st name (lit ("JsonWrite77:" ++ value)) with
    | Except.error m => (Except.error (GoErr.msg m), st)
    | Except.ok st1 => (Except.ok none, st1)
  | _ => (Except.error (GoErr.msg "Incorrect number of arguments. Expecting 2. name of the variable and value to set"), st)

/-- Invoke dispatch of the first revision (source lines 136-155). -/
def Invoke (st : StubState) (fn : String) (args : List String) : GoOut × StubState :=
  if fn = "init" then Chain.Init st args
  else if fn = "delete" then Chain.Delete st args
  else if fn = "write" then Chain.Write st args
  else if fn = "initSmartPay" then initSmartPay st args
  else if fn = "jsonWrite" then JsonWrite st args
  else (Except.error (GoErr.msg "Received unknown function invocation"), st)

end SmartPayCC

/-! ## Second revision (source lines 454-802): simple payments -/

namespace PaymentCC

structure PaymentTransaction where
  TransactionID : String
  DrawerID : String
  PayeeID : String
  Amount : Int
  Currency : String
deriving DecidableEq

def zeroPayment : PaymentTransaction := ⟨"", "", "", 0, ""⟩

def decodePaymentJson (j : Json) : Option PaymentTransaction :=
  match j with
  | Json.null => some zeroPayment
  | Json.obj fs => do
    let a ← getStrField fs "transactionID"
    let b ← getStrField fs "drawerID"
    let c ← getStrField fs "payeeID"
    let d ← getIntField fs "amount"
    let e ← getStrField fs "currency"
    pure ⟨a, b, c, d, e⟩
  | _ => none

/-- json.Unmarshal(bytes, &PaymentTransaction{}), result or DecodeError. -/
def decodePayment (bs : Bytes) : Option PaymentTransaction :=
  (parseJsonTop bs).bind decodePaymentJson

def setPaymentField (r : PaymentTransaction) (k : List Char) (v : Json) : PaymentTransaction :=
  if lowerChars k = lowerChars (lit "transactionID") then
    match v with
    | Json.str s => { r with TransactionID := String.mk s }
    | _ => r
  else if lowerChars k = lowerChars (lit "drawerID") then
    match v with
    | Json.str s => { r with DrawerID := String.mk s }
    | _ => r
  else if lowerChars k = lowerChars (lit "payeeID") then
    match v with
    | Json.str s => { r with PayeeID := String.mk s }
    | _ => r
  else if lowerChars k = lowerChars (lit "amount") then
    match v with
    | Json.num d =>
      if d.exp = 0 then
        { r with Amount := if d.neg then -(Int.ofNat d.mant) else Int.ofNat d.mant }
      else r
    | _ => r
  else if lowerChars k = lowerChars (lit "currency") then
    match v with
    | Json.str s => { r with Currency := String.mk s }
    | _ => r
  else r

def applyPaymentMembers : PaymentTransaction → List (List Char × Json) → PaymentTransaction
  | r, [] => r
  | r, (k, v) :: rest => applyPaymentMembers (setPaymentField r k v) rest

/-- json.Unmarshal(bytes, &PaymentTransaction{}) with the returned error
ignored, as in initPayment's existence check: scan-invalid bytes or a
non-object value leave the zero struct; an object is applied member by
member as Go's decoder does (saving and dropping type errors), so fields
around a type-mismatched member are still populated. -/
def unmarshalPayment (bs : Bytes) : PaymentTransaction :=
  match parseJsonTop bs with
  | some (Json.obj fs) => applyPaymentMembers zeroPayment fs
  | _ => zeroPayment

/-- The values initPayment extracts from its argument list. -/
structure PaymentFields where
  transID : String
  drawerID : String
  payeeID : String
  amount : Int
  currency : String
deriving DecidableEq

/-- Argument-count check and input sanitation of initPayment (source lines
736-764): exactly 5 arguments, all non-empty, args[3] numeric; transID is
taken verbatim (not lowercased), the other strings are lowercased. -/
def validatePayment (args : List String) : Except GoErr PaymentFields :=
  match args with
  | [a0, a1, a2, a3, a4] =>
    if a0.length ≤ 0 then Except.error (GoErr.msg "1st argument must be a non-empty string")
    else if a1.length ≤ 0 then Except.error (GoErr.msg "2nd argument must be a non-empty string")
    else if a2.length ≤ 0 then Except.error (GoErr.msg "3rd argument must be a non-empty string")
    else if a3.length ≤ 0 then Except.error (GoErr.msg "4th argument must be a non-empty string")
    else if a4.length ≤ 0 then Except.error (GoErr.msg "5th argument must be a non-empty string")
    else
      match atoiGo a3 with
      | none => Except.error (GoErr.msg "3rd argument must be a numeric string")
      | some amount => Except.ok ⟨a0, toLowerGo a1, toLowerGo a2, amount, toLowerGo a4⟩
  | _ => Except.error (GoErr.msg "Incorrect number of arguments. Expecting 5")

/-- The Payment json string built manually at source line 780, including
its malformations: the drawerID value's closing quote is missing, and the
transID is concatenated right after the amount number. -/
def paymentJsonStr (transID drawerID payeeID : String) (amount : Int) (currency : String) : Bytes :=
  lit "\x7b\"transactionID\": \"" ++ lit transID
    ++ lit "\", \"drawerID\": \"" ++ lit drawerID
    ++ lit ", \"payeeID\": \"" ++ lit payeeID
    ++ lit "\", \"amount\": " ++ lit (intStr amount) ++ lit transID
    ++ lit "\", \"currency\": \"" ++ lit currency ++ lit "\"\x7d"

/-- The bytes initPayment persists for a record. -/
def encodePayment (r : PaymentTransaction) : Bytes :=
  paymentJsonStr r.TransactionID r.DrawerID r.PayeeID r.Amount r.Currency

/-- initPayment (source lines 730-802). -/
def initPayment (st : StubState) (args : List String) : GoOut × StubState :=
  match validatePayment args with
  | Except.error e => (Except.error e, st)
  | Except.ok f =>
    match stubGet st f.transID with
    | Except.error _ => (Except.error (GoErr.msg "Failed to get Transaction name"), st)
    | Except.ok paymentAsBytes =>
      let res := unmarshalPayment paymentAsBytes
      if res.TransactionID = f.transID then
        (Except.error (GoErr.msg "This PaymentTranaction arleady exists"), st)
      else
        match stubPut st f.transID (paymentJsonStr f.transID f.drawerID f.payeeID f.amount f.currency) with
        | Except.error m => (Except.error (GoErr.msg m), st)
        | Except.ok st1 =>
          match stubGet st1 paymentIndexStr with
          | Except.error _ => (Except.error (GoErr.msg "Failed to get marble index"), st1)
          | Except.ok idxBytes =>
            let paymentIndex := unmarshalStringList idxBytes ++ [f.transID]
            match stubPut st1 paymentIndexStr (marshalStringList paymentIndex) with
            | Except.error _ => (Except.ok none, st1)
            | Except.ok st2 => (Except.ok none, st2)

/-- NewEcrire: raw put with a fixed tag prepended. -/
def NewEcrire (st : StubState) (args : List String) : GoOut × StubState :=
  match args with
  | [name, value] =>
    match stubPut st name (lit ("SmartPayTransactions:" ++ value)) with
    | Except.error m => (Except.error (GoErr.msg m), st)
    | Except.ok st1 => (Except.ok none, st1)
  | _ => (Except.error (GoErr.msg "Incorrect number of arguments. Expecting 2. name of the variable and value to set"), st)

/-- Invoke dispatch of the second revision (source lines 589-608). -/
def Invoke (st : StubState) (fn : String) (args : List String) : GoOut × StubState :=
  if fn = "init" then Chain.Init st args
  else if fn = "delete" then Chain.Delete st args
  else if fn = "write" then Chain.Write st args
  else if fn = "initPayment" then initPayment st args
  else if fn = "newEcrire" then NewEcrire st args
  else (Except.error (GoErr.msg "Received unknown function invocation"), st)

end PaymentCC

/-! ## Helper lemmas about the store model -/

set_option maxRecDepth 65536

theorem lookupState_filter_self (l : List (String × Bytes)) (name : String) :
    lookupState (l.filter (fun p => !decide (p.1 = name))) name = none := by
  induction l with
  | nil => rfl
  | cons p rest ih =>
    rcases p with ⟨pk, pv⟩
    by_cases hp : pk = name
    · rw [List.filter_cons_of_neg (by simp [hp])]
      exact ih
    · rw [List.filter_cons_of_pos (by simp [hp])]
      show (if pk = name then some pv else _) = none
      rw [if_neg hp]
      exact ih

theorem lookupState_filter_ne (l : List (String × Bytes)) (name k : String) (h : k ≠ name) :
    lookupState (l.filter (fun p => !decide (p.1 = name))) k = lookupState l k := by
  induction l with
  | nil => rfl
  | cons p rest ih =>
    rcases p with ⟨pk, pv⟩
    by_cases hp : pk = name
    · subst hp
      rw [List.filter_cons_of_neg (by simp)]
      rw [ih]
      show _ = if pk = k then some pv else lookupState rest k
      rw [if_neg (Ne.symm h)]
    · rw [List.filter_cons_of_pos (by simp [hp])]
      show (if pk = k then some pv else _) = if pk = k then some pv else lookupState rest k
      by_cases hk : pk = k
      · rw [if_pos hk, if_pos hk]
      · rw [if_neg hk, if_neg hk, ih]

/-! ## Concrete scenario used by several claims -/

def tx1Args : List String := ["tx1", "alice", "bob", "35", "usd"]

def stAfterCreate : StubState := (PaymentCC.initPayment emptyStub tx1Args).2

def stAfterDelete : StubState := (Chain.Delete stAfterCreate ["tx1"]).2

def args15 : List String :=
  ["p1", "d1", "e1", "35", "usd", "r1", "s1", "usd", "d2", "eur", "100", "1.5", "l1", "ld1", "bw1"]

def args21 : List String :=
  args15 ++ ["500", "usd", "2.5", "2020-JAN", "SP1", "extra"]

/-! ## Claims -/

/-- C1: the arity guard of initSmartPay is len(args) < 15, not len(args) = 20.
A fully valid 15-argument list passes the guard and the function then reads
args[15], a Go index-out-of-range panic, with no state change; a
21-argument list is accepted outright instead of being rejected; only
lists shorter than 15 get the wrong-argument-count error (whose text says
15, not 20). -/
theorem c1_initSmartPay_arity :
    SmartPayCC.initSmartPay emptyStub args15 = (Except.error GoErr.oob, emptyStub) ∧
    (SmartPayCC.initSmartPay emptyStub args21).1 = Except.ok none ∧
    SmartPayCC.initSmartPay emptyStub ["a", "b", "c"] =
      (Except.error (GoErr.msg "Incorrect number of arguments. Expecting 15"), emptyStub) := by
  refine ⟨by decide, by decide, by decide⟩

/-- C2: the string-template encoders do not round-trip.  The plain-payment
template of initPayment drops the closing quote after drawerID and
concatenates the transaction id right after the amount digits, so its
output is rejected by JSON decoding; the composite template of initSmartPay
wraps the three sub-record objects in quotes without escaping (and strRem
carries a stray quote after the ExchangeRate number), so its output is
rejected as well.  Hence decode(encode r) is a decode error, not r. -/
theorem c2_encode_not_roundtrip :
    (PaymentCC.decodePayment (PaymentCC.encodePayment ⟨"tx1", "alice", "bob", 35, "usd"⟩) = none ∧
      PaymentCC.decodePayment (PaymentCC.encodePayment ⟨"tx1", "alice", "bob", 35, "usd"⟩) ≠
        some ⟨"tx1", "alice", "bob", 35, "usd"⟩) ∧
    ((parseJsonTop (SmartPayCC.strSmPay
        ⟨"p1", "d1", "e1", ⟨false, 35, 0⟩, "usd", "r1", "s1", "usd", "d2", "eur",
         ⟨false, 100, 0⟩, ⟨false, 15, 1⟩, "l1", "ld1", "bw1", ⟨false, 500, 0⟩, "usd",
         ⟨false, 25, 1⟩, "2020-jan", "sp1"⟩)).bind SmartPayCC.decodeSmartPayJson) = none := by
  refine ⟨⟨by decide, by decide⟩, by decide⟩

/-- C3: creating the same simple payment twice is not rejected.  The
malformed record encoding (see C2) makes the existence check's
json.Unmarshal fail, leaving the zero-valued struct whose empty id never
equals the candidate id, so the second initPayment call succeeds, rewrites
the record, and appends a duplicate entry to the payment index. -/
theorem c3_duplicate_create_not_rejected :
    (PaymentCC.initPayment emptyStub tx1Args).1 = Except.ok none ∧
    (PaymentCC.initPayment stAfterCreate tx1Args).1 = Except.ok none ∧
    unmarshalStringList
        ((lookupState (PaymentCC.initPayment stAfterCreate tx1Args).2.state paymentIndexStr).getD []) =
      ["tx1", "tx1"] := by
  refine ⟨by decide, by decide, by decide⟩

/-- C4 counterexample: after createSimple("tx1") and Delete("tx1"), the
record is gone (read returns empty) but the payment (simple-kind) index
still equals ["tx1"]: it neither drops the id nor shrinks, because Delete
only rewrites the smartpay index. -/
theorem c4_counterexample :
    (Chain.Delete stAfterCreate ["tx1"]).1 = Except.ok none ∧
    (Chain.read stAfterDelete ["tx1"]).1 = Except.ok (some []) ∧
    unmarshalStringList ((lookupState stAfterCreate.state paymentIndexStr).getD []) = ["tx1"] ∧
    unmarshalStringList ((lookupState stAfterDelete.state paymentIndexStr).getD []) = ["tx1"] := by
  refine ⟨by decide, by decide, by decide, by decide⟩

/-- C4 (amended): Delete removes the key from the store and rewrites only
the SMARTPAY index, removing the first occurrence of the id from it; the
payment (simple-kind) index entry is left untouched, so after
createSimple(id) then deleteRaw(id) the read returns empty while the
simple index still contains id. -/
theorem c4_delete_touches_only_smartpay_index (st : StubState) (name : String)
    (hpi : name ≠ paymentIndexStr) (hsi : name ≠ smartPayIndexStr)
    (hd : name ∉ st.failDel)
    (hg : smartPayIndexStr ∉ st.failGet)
    (hp : smartPayIndexStr ∉ st.failPut)
    (hr : name ∉ st.failGet) :
    (Chain.Delete st [name]).1 = Except.ok none ∧
    lookupState (Chain.Delete st [name]).2.state paymentIndexStr = lookupState st.state paymentIndexStr ∧
    (Chain.read (Chain.Delete st [name]).2 [name]).1 = Except.ok (some []) ∧
    lookupState (Chain.Delete st [name]).2.state smartPayIndexStr =
      some (marshalStringList (Chain.removeFirstGo
        (unmarshalStringList ((lookupState st.state smartPayIndexStr).getD [])) name)) := by
  have hips : smartPayIndexStr ≠ paymentIndexStr := by decide
  have hpn : paymentIndexStr ≠ name := fun h => hpi h.symm
  have hsn : smartPayIndexStr ≠ name := fun h => hsi h.symm
  refine ⟨?_, ?_, ?_, ?_⟩
  · simp [Chain.Delete, stubDel, stubGet, stubPut, hd, hg, hp]
  · simp [Chain.Delete, stubDel, stubGet, stubPut, hd, hg, hp, lookupState, hips,
      lookupState_filter_ne _ _ _ hpn]
  · simp [Chain.Delete, stubDel, stubGet, stubPut, hd, hg, hp, Chain.read, hr, lookupState, hsn,
      lookupState_filter_self]
  · simp [Chain.Delete, stubDel, stubGet, stubPut, hd, hg, hp, lookupState,
      lookupState_filter_ne _ _ _ hsn]

/-- C4 amended-claim witness at a concrete input. -/
theorem c4_delete_witness :
    (Chain.Delete stAfterCreate ["tx1"]).1 = Except.ok none ∧
    lookupState (Chain.Delete stAfterCreate ["tx1"]).2.state paymentIndexStr =
      lookupState stAfterCreate.state paymentIndexStr := by
  have h := c4_delete_touches_only_smartpay_index stAfterCreate "tx1"
    (by decide) (by decide) (by decide) (by decide) (by decide) (by decide)
  exact ⟨h.1, h.2.1⟩

/-- C5 counterexample: initPayment keys and stores the transaction id
exactly as supplied ("TX1" stays "TX1"), and initSmartPay lowercases the
date-like loanReturnDate field ("2020-JAN" becomes "2020-jan"), so neither
"every identifier including the transaction ids is lowercased" nor "date
fields pass through unmodified" holds. -/
theorem c5_counterexample :
    PaymentCC.validatePayment ["TX1", "Alice", "Bob", "35", "USD"] =
      Except.ok ⟨"TX1", "alice", "bob", 35, "usd"⟩ ∧
    toLowerGo "TX1" = "tx1" ∧
    Except.map SmartPayCC.SmartPayFields.loanReturnDate (SmartPayCC.validateSmartPay args21) =
      Except.ok "2020-jan" := by
  refine ⟨by decide, by decide, by decide⟩

/-- C5 (amended): on validated input, initPayment lowercases drawer, payee
and currency but keeps the transaction id verbatim, while initSmartPay
lowercases every string argument it stores — ids, currencies and also the
loan return date; the numeric fields are passed through as parsed
numbers. -/
theorem c5_normalization :
    (∀ a0 a1 a2 a3 a4 n, 0 < a0.length → 0 < a1.length → 0 < a2.length →
      0 < a3.length → 0 < a4.length → atoiGo a3 = some n →
      PaymentCC.validatePayment [a0, a1, a2, a3, a4] =
        Except.ok ⟨a0, toLowerGo a1, toLowerGo a2, n, toLowerGo a4⟩) ∧
    (∀ b0 b1 b2 b3 b4 b5 b6 b7 b8 b9 b10 b11 b12 b13 b14 b15 b16 b17 b18 b19 q3 q10 q11 q15 q17,
      0 < b0.length → 0 < b1.length → 0 < b2.length → 0 < b3.length → 0 < b4.length →
      0 < b5.length → 0 < b6.length → 0 < b7.length → 0 < b8.length → 0 < b9.length →
      0 < b10.length → 0 < b11.length → 0 < b12.length → 0 < b13.length → 0 < b14.length →
      0 < b15.length → 0 < b16.length → 0 < b17.length → 0 < b18.length → 0 < b19.length →
      parseFloatGo b3 = some q3 → parseFloatGo b10 = some q10 →
      parseFloatGo b11 = some q11 → parseFloatGo b15 = some q15 →
      parseFloatGo b17 = some q17 →
      SmartPayCC.validateSmartPay
          [b0, b1, b2, b3, b4, b5, b6, b7, b8, b9, b10, b11, b12, b13, b14, b15, b16, b17, b18, b19] =
        Except.ok ⟨toLowerGo b0, toLowerGo b1, toLowerGo b2, q3, toLowerGo b4,
          toLowerGo b5, toLowerGo b6, toLowerGo b7, toLowerGo b8, toLowerGo b9,
          q10, q11, toLowerGo b12, toLowerGo b13, toLowerGo b14, q15,
          toLowerGo b16, q17, toLowerGo b18, toLowerGo b19⟩) := by
  constructor
  · intro a0 a1 a2 a3 a4 n h0 h1 h2 h3 h4 hn
    simp [PaymentCC.validatePayment, Nat.not_le.mpr h0, Nat.not_le.mpr h1,
      Nat.not_le.mpr h2, Nat.not_le.mpr h3, Nat.not_le.mpr h4, hn]
  · intro b0 b1 b2 b3 b4 b5 b6 b7 b8 b9 b10 b11 b12 b13 b14 b15 b16 b17 b18 b19
      q3 q10 q11 q15 q17 h0 h1 h2 h3 h4 h5 h6 h7 h8 h9 h10 h11 h12 h13 h14 h15 h16 h17 h18 h19
      hp3 hp10 hp11 hp15 hp17
    simp [SmartPayCC.validateSmartPay, argAt, Nat.not_le.mpr h0, Nat.not_le.mpr h1,
      Nat.not_le.mpr h2, Nat.not_le.mpr h3, Nat.not_le.mpr h4, Nat.not_le.mpr h5,
      Nat.not_le.mpr h6, Nat.not_le.mpr h7, Nat.not_le.mpr h8, Nat.not_le.mpr h9,
      Nat.not_le.mpr h10, Nat.not_le.mpr h11, Nat.not_le.mpr h12, Nat.not_le.mpr h13,
      Nat.not_le.mpr h14, Nat.not_le.mpr h15, Nat.not_le.mpr h16, Nat.not_le.mpr h17,
      Nat.not_le.mpr h18, Nat.not_le.mpr h19, hp3, hp10, hp11, hp15, hp17]

/-- C5 amended-claim witness at a concrete input. -/
theorem c5_normalization_witness :
    PaymentCC.validatePayment ["TX1", "Alice", "Bob", "35", "USD"] =
      Except.ok ⟨"TX1", toLowerGo "Alice", toLowerGo "Bob", 35, toLowerGo "USD"⟩ :=
  c5_normalization.1 "TX1" "Alice" "Bob" "35" "USD" 35
    (by decide) (by decide) (by decide) (by decide) (by decide) (by decide)

/-- C6 counterexample: with the smartpay-index key marked as failing on
PutState, Delete's final index persist fails, yet Delete returns success —
the failed index persist is not reported. -/
theorem c6_counterexample :
    stubPut ⟨[], [], [smartPayIndexStr], []⟩ smartPayIndexStr (marshalStringList []) =
      Except.error "PutState failed" ∧
    (Chain.Delete ⟨[], [], [smartPayIndexStr], []⟩ ["x"]).1 = Except.ok none := by
  refine ⟨by decide, by decide⟩

/-- C6 (amended): in every operation — Init, read, Write, Delete,
initPayment, initSmartPay — a failure of an underlying store get/put/delete
call aborts the operation and is returned to the caller, except that the
final index-persisting PutState of Delete, initPayment and initSmartPay
has its error assigned and dropped, the operation reporting success. -/
theorem c6_propagation :
    (∀ st name, name ∈ st.failDel →
      Chain.Delete st [name] = (Except.error (GoErr.msg "Failed to delete state"), st)) ∧
    (∀ st name, name ∉ st.failDel → smartPayIndexStr ∈ st.failGet →
      (Chain.Delete st [name]).1 =
        Except.error (GoErr.msg "Failed to get SmartPayTransaction index")) ∧
    (∀ st name, name ∉ st.failDel → smartPayIndexStr ∉ st.failGet →
      (Chain.Delete st [name]).1 = Except.ok none) ∧
    (∀ st args f, PaymentCC.validatePayment args = Except.ok f →
      f.transID ∈ st.failGet →
      PaymentCC.initPayment st args =
        (Except.error (GoErr.msg "Failed to get Transaction name"), st)) ∧
    (∀ st args f, PaymentCC.validatePayment args = Except.ok f →
      f.transID ∉ st.failGet → lookupState st.state f.transID = none → f.transID ≠ "" →
      f.transID ∈ st.failPut →
      PaymentCC.initPayment st args = (Except.error (GoErr.msg "PutState failed"), st)) ∧
    (∀ st args f, PaymentCC.validatePayment args = Except.ok f →
      f.transID ∉ st.failGet → lookupState st.state f.transID = none → f.transID ≠ "" →
      f.transID ∉ st.failPut → paymentIndexStr ∈ st.failGet →
      (PaymentCC.initPayment st args).1 = Except.error (GoErr.msg "Failed to get marble index")) ∧
    (∀ st args f, PaymentCC.validatePayment args = Except.ok f →
      f.transID ∉ st.failGet → lookupState st.state f.transID = none → f.transID ≠ "" →
      f.transID ∉ st.failPut → paymentIndexStr ∉ st.failGet →
      (PaymentCC.initPayment st args).1 = Except.ok none) ∧
    (∀ st args f, SmartPayCC.validateSmartPay args = Except.ok f →
      f.smartPayID ∈ st.failGet →
      SmartPayCC.initSmartPay st args =
        (Except.error (GoErr.msg "Failed to get Transaction name"), st)) ∧
    (∀ st args f, SmartPayCC.validateSmartPay args = Except.ok f →
      f.smartPayID ∉ st.failGet → lookupState st.state f.smartPayID = none → f.smartPayID ≠ "" →
      f.smartPayID ∈ st.failPut →
      SmartPayCC.initSmartPay st args = (Except.error (GoErr.msg "PutState failed"), st)) ∧
    (∀ st args f, SmartPayCC.validateSmartPay args = Except.ok f →
      f.smartPayID ∉ st.failGet → lookupState st.state f.smartPayID = none → f.smartPayID ≠ "" →
      f.smartPayID ∉ st.failPut → smartPayIndexStr ∈ st.failGet →
      (SmartPayCC.initSmartPay st args).1 =
        Except.error (GoErr.msg "Failed to get marble index")) ∧
    (∀ st args f, SmartPayCC.validateSmartPay args = Except.ok f →
      f.smartPayID ∉ st.failGet → lookupState st.state f.smartPayID = none → f.smartPayID ≠ "" →
      f.smartPayID ∉ st.failPut → smartPayIndexStr ∉ st.failGet →
      (SmartPayCC.initSmartPay st args).1 = Except.ok none) ∧
    (∀ st a0 n, atoiGo a0 = some n → "abc" ∈ st.failPut →
      Chain.Init st [a0] = (Except.error (GoErr.msg "PutState failed"), st)) ∧
    (∀ st a0 n, atoiGo a0 = some n → "abc" ∉ st.failPut → smartPayIndexStr ∈ st.failPut →
      (Chain.Init st [a0]).1 = Except.error (GoErr.msg "PutState failed")) ∧
    (∀ st a0 n, atoiGo a0 = some n → "abc" ∉ st.failPut → smartPayIndexStr ∉ st.failPut →
      paymentIndexStr ∈ st.failPut →
      (Chain.Init st [a0]).1 = Except.error (GoErr.msg "PutState failed")) ∧
    (∀ st a0 n, atoiGo a0 = some n → "abc" ∉ st.failPut → smartPayIndexStr ∉ st.failPut →
      paymentIndexStr ∉ st.failPut →
      (Chain.Init st [a0]).1 = Except.ok none) ∧
    (∀ st name value, name ∈ st.failPut →
      Chain.Write st [name, value] = (Except.error (GoErr.msg "PutState failed"), st)) ∧
    (∀ st name value, name ∉ st.failPut →
      (Chain.Write st [name, value]).1 = Except.ok none) ∧
    (∀ st name, name ∈ st.failGet →
      Chain.read st [name] =
        (Except.error (GoErr.msg ("\x7b\"Error\":\"Failed to get state for " ++ name ++ "\"\x7d")),
         st)) ∧
    (∀ st name, name ∉ st.failGet →
      Chain.read st [name] = (Except.ok (some ((lookupState st.state name).getD [])), st)) := by
  have hzp : (PaymentCC.unmarshalPayment []).TransactionID = "" := rfl
  have hzs : (SmartPayCC.unmarshalSmartPay []).SmartPayTransID = "" := rfl
  refine ⟨?_, ?_, ?_, ?_, ?_, ?_, ?_, ?_, ?_, ?_, ?_, ?_, ?_, ?_, ?_, ?_, ?_, ?_, ?_⟩
  · intro st name h
    simp [Chain.Delete, stubDel, h]
  · intro st name h1 h2
    simp [Chain.Delete, stubDel, stubGet, h1, h2]
  · intro st name h1 h2
    by_cases h3 : smartPayIndexStr ∈ st.failPut <;>
      simp [Chain.Delete, stubDel, stubGet, stubPut, h1, h2, h3]
  · intro st args f hv h
    simp [PaymentCC.initPayment, hv, stubGet, h]
  · intro st args f hv h1 h2 h3 h4
    simp [PaymentCC.initPayment, hv, stubGet, stubPut, h1, h2, Ne.symm h3, hzp, h4]
  · intro st args f hv h1 h2 h3 h4 h5
    simp [PaymentCC.initPayment, hv, stubGet, stubPut, h1, h2, Ne.symm h3, hzp, h4, h5]
  · intro st args f hv h1 h2 h3 h4 h5
    by_cases h6 : paymentIndexStr ∈ st.failPut <;>
      simp [PaymentCC.initPayment, hv, stubGet, stubPut, h1, h2, Ne.symm h3, hzp, h4, h5, h6]
  · intro st args f hv h
    simp [SmartPayCC.initSmartPay, hv, stubGet, h]
  · intro st args f hv h1 h2 h3 h4
    simp [SmartPayCC.initSmartPay, hv, stubGet, stubPut, h1, h2, Ne.symm h3, hzs, h4]
  · intro st args f hv h1 h2 h3 h4 h5
    simp [SmartPayCC.initSmartPay, hv, stubGet, stubPut, h1, h2, Ne.symm h3, hzs, h4, h5]
  · intro st args f hv h1 h2 h3 h4 h5
    by_cases h6 : smartPayIndexStr ∈ st.failPut <;>
      simp [SmartPayCC.initSmartPay, hv, stubGet, stubPut, h1, h2, Ne.symm h3, hzs, h4, h5, h6]
  · intro st a0 n hn h
    simp [Chain.Init, hn, stubPut, h]
  · intro st a0 n hn h1 h2
    simp [Chain.Init, hn, stubPut, h1, h2]
  · intro st a0 n hn h1 h2 h3
    simp [Chain.Init, hn, stubPut, h1, h2, h3]
  · intro st a0 n hn h1 h2 h3
    simp [Chain.Init, hn, stubPut, h1, h2, h3]
  · intro st name value h
    simp [Chain.Write, stubPut, h]
  · intro st name value h
    simp [Chain.Write, stubPut, h]
  · intro st name h
    simp [Chain.read, stubGet, h]
  · intro st name h
    simp [Chain.read, stubGet, h]

/-- C6 amended-claim witness at concrete inputs. -/
theorem c6_propagation_witness :
    (PaymentCC.initPayment emptyStub tx1Args).1 = Except.ok none ∧
    (SmartPayCC.initSmartPay emptyStub args21).1 = Except.ok none ∧
    (Chain.Delete ⟨[], [], [smartPayIndexStr], []⟩ ["x"]).1 = Except.ok none :=
  ⟨c6_propagation.2.2.2.2.2.2.1 emptyStub tx1Args ⟨"tx1", "alice", "bob", 35, "usd"⟩
      (by decide) (by decide) (by decide) (by decide) (by decide) (by decide),
   c6_propagation.2.2.2.2.2.2.2.2.2.2.1 emptyStub args21
      ⟨"p1", "d1", "e1", ⟨false, 35, 0⟩, "usd", "r1", "s1", "usd", "d2", "eur",
       ⟨false, 100, 0⟩, ⟨false, 15, 1⟩, "l1", "ld1", "bw1", ⟨false, 500, 0⟩, "usd",
       ⟨false, 25, 1⟩, "2020-jan", "sp1"⟩
      (by decide) (by decide) (by decide) (by decide) (by decide) (by decide),
   c6_propagation.2.2.1 ⟨[], [], [smartPayIndexStr], []⟩ "x" (by decide) (by decide)⟩

/-- C7: any argument list the input sanitation rejects (wrong arity, empty
argument, unparseable number) makes initPayment and initSmartPay return
that validation error with the ledger state untouched — validation runs
before any GetState or PutState. -/
theorem c7_validation_rejection_no_write :
    (∀ st args e, PaymentCC.validatePayment args = Except.error e →
      PaymentCC.initPayment st args = (Except.error e, st)) ∧
    (∀ st args e, SmartPayCC.validateSmartPay args = Except.error e →
      SmartPayCC.initSmartPay st args = (Except.error e, st)) := by
  constructor
  · intro st args e h
    simp [PaymentCC.initPayment, h]
  · intro st args e h
    simp [SmartPayCC.initSmartPay, h]

/-- C7 witness: the spec's own example, a SimpleTransaction creation with
an empty 5th (currency) argument. -/
theorem c7_witness :
    PaymentCC.validatePayment ["tx1", "alice", "bob", "35", ""] =
      Except.error (GoErr.msg "5th argument must be a non-empty string") ∧
    PaymentCC.initPayment emptyStub ["tx1", "alice", "bob", "35", ""] =
      (Except.error (GoErr.msg "5th argument must be a non-empty string"), emptyStub) :=
  ⟨by decide, c7_validation_rejection_no_write.1 emptyStub ["tx1", "alice", "bob", "35", ""]
    (GoErr.msg "5th argument must be a non-empty string") (by decide)⟩

/-- C8 counterexample: with an unparseable 4th argument (1-based position
4, Go index 3), initPayment's error says "3rd argument must be a numeric
string" — the message carries the 0-based index, not the 1-based
position. -/
theorem c8_counterexample :
    PaymentCC.validatePayment ["tx1", "a", "b", "xx", "usd"] =
      Except.error (GoErr.msg "3rd argument must be a numeric string") ∧
    atoiGo "xx" = none ∧
    ["tx1", "a", "b", "xx", "usd"].getD 3 "" = "xx" ∧
    0 < "tx1".length ∧ 0 < "a".length ∧ 0 < "b".length := by
  refine ⟨by decide, by decide, by decide, by decide, by decide, by decide⟩

/-- C8 (amended): empty-argument violations are reported with the correct
1-based position in both validators (1st..5th in initPayment, 1st..20th in
initSmartPay), but unparseable-number violations are reported with the Go
slice index: initPayment says "3rd" for its 4th argument, and initSmartPay
says "3rd", "10", "11", "15" and "17" for its 4th, 11th, 12th, 16th and
18th arguments. -/
theorem c8_positions :
    (∀ a0 a1 a2 a3 a4 : String, a0.length = 0 →
      PaymentCC.validatePayment [a0, a1, a2, a3, a4] =
        Except.error (GoErr.msg "1st argument must be a non-empty string")) ∧
    (∀ a0 a1 a2 a3 a4 : String, 0 < a0.length → a1.length = 0 →
      PaymentCC.validatePayment [a0, a1, a2, a3, a4] =
        Except.error (GoErr.msg "2nd argument must be a non-empty string")) ∧
    (∀ a0 a1 a2 a3 a4 : String, 0 < a0.length → 0 < a1.length → a2.length = 0 →
      PaymentCC.validatePayment [a0, a1, a2, a3, a4] =
        Except.error (GoErr.msg "3rd argument must be a non-empty string")) ∧
    (∀ a0 a1 a2 a3 a4 : String, 0 < a0.length → 0 < a1.length → 0 < a2.length →
      a3.length = 0 →
      PaymentCC.validatePayment [a0, a1, a2, a3, a4] =
        Except.error (GoErr.msg "4th argument must be a non-empty string")) ∧
    (∀ a0 a1 a2 a3 a4 : String, 0 < a0.length → 0 < a1.length → 0 < a2.length →
      0 < a3.length → a4.length = 0 →
      PaymentCC.validatePayment [a0, a1, a2, a3, a4] =
        Except.error (GoErr.msg "5th argument must be a non-empty string")) ∧
    (∀ a0 a1 a2 a3 a4 : String, 0 < a0.length → 0 < a1.length → 0 < a2.length →
      0 < a3.length → 0 < a4.length → atoiGo a3 = none →
      PaymentCC.validatePayment [a0, a1, a2, a3, a4] =
        Except.error (GoErr.msg "3rd argument must be a numeric string")) ∧
    (∀ b0 b1 b2 b3 b4 b5 b6 b7 b8 b9 b10 b11 b12 b13 b14 b15 b16 b17 b18 b19 q3,
      0 < b0.length → 0 < b1.length → 0 < b2.length → 0 < b3.length → 0 < b4.length →
      0 < b5.length → 0 < b6.length → 0 < b7.length → 0 < b8.length → 0 < b9.length →
      0 < b10.length → 0 < b11.length →
      parseFloatGo b3 = some q3 → parseFloatGo b10 = none →
      SmartPayCC.validateSmartPay
          [b0, b1, b2, b3, b4, b5, b6, b7, b8, b9, b10, b11, b12, b13, b14, b15, b16, b17, b18, b19] =
        Except.error (GoErr.msg "10 argument must be a Floating Point")) ∧
    (∀ b0 b1 b2 b3 b4 b5 b6 b7 b8 b9 b10 b11 b12 b13 b14 b15 b16 b17 b18 b19,
      b0.length = 0 →
      SmartPayCC.validateSmartPay
          [b0, b1, b2, b3, b4, b5, b6, b7, b8, b9, b10, b11, b12, b13, b14, b15, b16, b17, b18, b19] =
        Except.error (GoErr.msg "1st argument must be a non-empty string")) ∧
    (∀ b0 b1 b2 b3 b4 b5 b6 b7 b8 b9 b10 b11 b12 b13 b14 b15 b16 b17 b18 b19,
      0 < b0.length → b1.length = 0 →
      SmartPayCC.validateSmartPay
          [b0, b1, b2, b3, b4, b5, b6, b7, b8, b9, b10, b11, b12, b13, b14, b15, b16, b17, b18, b19] =
        Except.error (GoErr.msg "2nd argument must be a non-empty string")) ∧
    (∀ b0 b1 b2 b3 b4 b5 b6 b7 b8 b9 b10 b11 b12 b13 b14 b15 b16 b17 b18 b19,
      0 < b0.length → 0 < b1.length → b2.length = 0 →
      SmartPayCC.validateSmartPay
          [b0, b1, b2, b3, b4, b5, b6, b7, b8, b9, b10, b11, b12, b13, b14, b15, b16, b17, b18, b19] =
        Except.error (GoErr.msg "3rd argument must be a non-empty string")) ∧
    (∀ b0 b1 b2 b3 b4 b5 b6 b7 b8 b9 b10 b11 b12 b13 b14 b15 b16 b17 b18 b19,
      0 < b0.length → 0 < b1.length → 0 < b2.length → b3.length = 0 →
      SmartPayCC.validateSmartPay
          [b0, b1, b2, b3, b4, b5, b6, b7, b8, b9, b10, b11, b12, b13, b14, b15, b16, b17, b18, b19] =
        Except.error (GoErr.msg "4th argument must be a non-empty string")) ∧
    (∀ b0 b1 b2 b3 b4 b5 b6 b7 b8 b9 b10 b11 b12 b13 b14 b15 b16 b17 b18 b19,
      0 < b0.length → 0 < b1.length → 0 < b2.length → 0 < b3.length →
      b4.length = 0 →
      SmartPayCC.validateSmartPay
          [b0, b1, b2, b3, b4, b5, b6, b7, b8, b9, b10, b11, b12, b13, b14, b15, b16, b17, b18, b19] =
        Except.error (GoErr.msg "5th argument must be a non-empty string")) ∧
    (∀ b0 b1 b2 b3 b4 b5 b6 b7 b8 b9 b10 b11 b12 b13 b14 b15 b16 b17 b18 b19 q3,
      0 < b0.length → 0 < b1.length → 0 < b2.length → 0 < b3.length →
      0 < b4.length → parseFloatGo b3 = some q3 → b5.length = 0 →
      SmartPayCC.validateSmartPay
          [b0, b1, b2, b3, b4, b5, b6, b7, b8, b9, b10, b11, b12, b13, b14, b15, b16, b17, b18, b19] =
        Except.error (GoErr.msg "6th argument must be a non-empty string")) ∧
    (∀ b0 b1 b2 b3 b4 b5 b6 b7 b8 b9 b10 b11 b12 b13 b14 b15 b16 b17 b18 b19 q3,
      0 < b0.length → 0 < b1.length → 0 < b2.length → 0 < b3.length →
      0 < b4.length → parseFloatGo b3 = some q3 → 0 < b5.length → b6.length = 0 →
      SmartPayCC.validateSmartPay
          [b0, b1, b2, b3, b4, b5, b6, b7, b8, b9, b10, b11, b12, b13, b14, b15, b16, b17, b18, b19] =
        Except.error (GoErr.msg "7th argument must be a non-empty string")) ∧
    (∀ b0 b1 b2 b3 b4 b5 b6 b7 b8 b9 b10 b11 b12 b13 b14 b15 b16 b17 b18 b19 q3,
      0 < b0.length → 0 < b1.length → 0 < b2.length → 0 < b3.length →
      0 < b4.length → parseFloatGo b3 = some q3 → 0 < b5.length → 0 < b6.length →
      b7.length = 0 →
      SmartPayCC.validateSmartPay
          [b0, b1, b2, b3, b4, b5, b6, b7, b8, b9, b10, b11, b12, b13, b14, b15, b16, b17, b18, b19] =
        Except.error (GoErr.msg "8th argument must be a non-empty string")) ∧
    (∀ b0 b1 b2 b3 b4 b5 b6 b7 b8 b9 b10 b11 b12 b13 b14 b15 b16 b17 b18 b19 q3,
      0 < b0.length → 0 < b1.length → 0 < b2.length → 0 < b3.length →
      0 < b4.length → parseFloatGo b3 = some q3 → 0 < b5.length → 0 < b6.length →
      0 < b7.length → b8.length = 0 →
      SmartPayCC.validateSmartPay
          [b0, b1, b2, b3, b4, b5, b6, b7, b8, b9, b10, b11, b12, b13, b14, b15, b16, b17, b18, b19] =
        Except.error (GoErr.msg "9th argument must be a non-empty string")) ∧
    (∀ b0 b1 b2 b3 b4 b5 b6 b7 b8 b9 b10 b11 b12 b13 b14 b15 b16 b17 b18 b19 q3,
      0 < b0.length → 0 < b1.length → 0 < b2.length → 0 < b3.length →
      0 < b4.length → parseFloatGo b3 = some q3 → 0 < b5.length → 0 < b6.length →
      0 < b7.length → 0 < b8.length → b9.length = 0 →
      SmartPayCC.validateSmartPay
          [b0, b1, b2, b3, b4, b5, b6, b7, b8, b9, b10, b11, b12, b13, b14, b15, b16, b17, b18, b19] =
        Except.error (GoErr.msg "10th argument must be a non-empty string")) ∧
    (∀ b0 b1 b2 b3 b4 b5 b6 b7 b8 b9 b10 b11 b12 b13 b14 b15 b16 b17 b18 b19 q3,
      0 < b0.length → 0 < b1.length → 0 < b2.length → 0 < b3.length →
      0 < b4.length → parseFloatGo b3 = some q3 → 0 < b5.length → 0 < b6.length →
      0 < b7.length → 0 < b8.length → 0 < b9.length → b10.length = 0 →
      SmartPayCC.validateSmartPay
          [b0, b1, b2, b3, b4, b5, b6, b7, b8, b9, b10, b11, b12, b13, b14, b15, b16, b17, b18, b19] =
        Except.error (GoErr.msg "11th argument must be a non-empty string")) ∧
    (∀ b0 b1 b2 b3 b4 b5 b6 b7 b8 b9 b10 b11 b12 b13 b14 b15 b16 b17 b18 b19 q3,
      0 < b0.length → 0 < b1.length → 0 < b2.length → 0 < b3.length →
      0 < b4.length → parseFloatGo b3 = some q3 → 0 < b5.length → 0 < b6.length →
      0 < b7.length → 0 < b8.length → 0 < b9.length → 0 < b10.length →
      b11.length = 0 →
      SmartPayCC.validateSmartPay
          [b0, b1, b2, b3, b4, b5, b6, b7, b8, b9, b10, b11, b12, b13, b14, b15, b16, b17, b18, b19] =
        Except.error (GoErr.msg "12th argument must be a non-empty string")) ∧
    (∀ b0 b1 b2 b3 b4 b5 b6 b7 b8 b9 b10 b11 b12 b13 b14 b15 b16 b17 b18 b19 q3 q10 q11,
      0 < b0.length → 0 < b1.length → 0 < b2.length → 0 < b3.length →
      0 < b4.length → parseFloatGo b3 = some q3 → 0 < b5.length → 0 < b6.length →
      0 < b7.length → 0 < b8.length → 0 < b9.length → 0 < b10.length →
      0 < b11.length → parseFloatGo b10 = some q10 → parseFloatGo b11 = some q11 → b12.length = 0 →
      SmartPayCC.validateSmartPay
          [b0, b1, b2, b3, b4, b5, b6, b7, b8, b9, b10, b11, b12, b13, b14, b15, b16, b17, b18, b19] =
        Except.error (GoErr.msg "13th argument must be a non-empty string")) ∧
    (∀ b0 b1 b2 b3 b4 b5 b6 b7 b8 b9 b10 b11 b12 b13 b14 b15 b16 b17 b18 b19 q3 q10 q11,
      0 < b0.length → 0 < b1.length → 0 < b2.length → 0 < b3.length →
      0 < b4.length → parseFloatGo b3 = some q3 → 0 < b5.length → 0 < b6.length →
      0 < b7.length → 0 < b8.length → 0 < b9.length → 0 < b10.length →
      0 < b11.length → parseFloatGo b10 = some q10 → parseFloatGo b11 = some q11 → 0 < b12.length →
      b13.length = 0 →
      SmartPayCC.validateSmartPay
          [b0, b1, b2, b3, b4, b5, b6, b7, b8, b9, b10, b11, b12, b13, b14, b15, b16, b17, b18, b19] =
        Except.error (GoErr.msg "14th argument must be a non-empty string")) ∧
    (∀ b0 b1 b2 b3 b4 b5 b6 b7 b8 b9 b10 b11 b12 b13 b14 b15 b16 b17 b18 b19 q3 q10 q11,
      0 < b0.length → 0 < b1.length → 0 < b2.length → 0 < b3.length →
      0 < b4.length → parseFloatGo b3 = some q3 → 0 < b5.length → 0 < b6.length →
      0 < b7.length → 0 < b8.length → 0 < b9.length → 0 < b10.length →
      0 < b11.length → parseFloatGo b10 = some q10 → parseFloatGo b11 = some q11 → 0 < b12.length →
      0 < b13.length → b14.length = 0 →
      SmartPayCC.validateSmartPay
          [b0, b1, b2, b3, b4, b5, b6, b7, b8, b9, b10, b11, b12, b13, b14, b15, b16, b17, b18, b19] =
        Except.error (GoErr.msg "15th argument must be a non-empty string")) ∧
    (∀ b0 b1 b2 b3 b4 b5 b6 b7 b8 b9 b10 b11 b12 b13 b14 b15 b16 b17 b18 b19 q3 q10 q11,
      0 < b0.length → 0 < b1.length → 0 < b2.length → 0 < b3.length →
      0 < b4.length → parseFloatGo b3 = some q3 → 0 < b5.length → 0 < b6.length →
      0 < b7.length → 0 < b8.length → 0 < b9.length → 0 < b10.length →
      0 < b11.length → parseFloatGo b10 = some q10 → parseFloatGo b11 = some q11 → 0 < b12.length →
      0 < b13.length → 0 < b14.length → b15.length = 0 →
      SmartPayCC.validateSmartPay
          [b0, b1, b2, b3, b4, b5, b6, b7, b8, b9, b10, b11, b12, b13, b14, b15, b16, b17, b18, b19] =
        Except.error (GoErr.msg "16th argument must be a non-empty string")) ∧
    (∀ b0 b1 b2 b3 b4 b5 b6 b7 b8 b9 b10 b11 b12 b13 b14 b15 b16 b17 b18 b19 q3 q10 q11,
      0 < b0.length → 0 < b1.length → 0 < b2.length → 0 < b3.length →
      0 < b4.length → parseFloatGo b3 = some q3 → 0 < b5.length → 0 < b6.length →
      0 < b7.length → 0 < b8.length → 0 < b9.length → 0 < b10.length →
      0 < b11.length → parseFloatGo b10 = some q10 → parseFloatGo b11 = some q11 → 0 < b12.length →
      0 < b13.length → 0 < b14.length → 0 < b15.length → b16.length = 0 →
      SmartPayCC.validateSmartPay
          [b0, b1, b2, b3, b4, b5, b6, b7, b8, b9, b10, b11, b12, b13, b14, b15, b16, b17, b18, b19] =
        Except.error (GoErr.msg "17th argument must be a non-empty string")) ∧
    (∀ b0 b1 b2 b3 b4 b5 b6 b7 b8 b9 b10 b11 b12 b13 b14 b15 b16 b17 b18 b19 q3 q10 q11,
      0 < b0.length → 0 < b1.length → 0 < b2.length → 0 < b3.length →
      0 < b4.length → parseFloatGo b3 = some q3 → 0 < b5.length → 0 < b6.length →
      0 < b7.length → 0 < b8.length → 0 < b9.length → 0 < b10.length →
      0 < b11.length → parseFloatGo b10 = some q10 → parseFloatGo b11 = some q11 → 0 < b12.length →
      0 < b13.length → 0 < b14.length → 0 < b15.length → 0 < b16.length →
      b17.length = 0 →
      SmartPayCC.validateSmartPay
          [b0, b1, b2, b3, b4, b5, b6, b7, b8, b9, b10, b11, b12, b13, b14, b15, b16, b17, b18, b19] =
        Except.error (GoErr.msg "18th argument must be a non-empty string")) ∧
    (∀ b0 b1 b2 b3 b4 b5 b6 b7 b8 b9 b10 b11 b12 b13 b14 b15 b16 b17 b18 b19 q3 q10 q11,
      0 < b0.length → 0 < b1.length → 0 < b2.length → 0 < b3.length →
      0 < b4.length → parseFloatGo b3 = some q3 → 0 < b5.length → 0 < b6.length →
      0 < b7.length → 0 < b8.length → 0 < b9.length → 0 < b10.length →
      0 < b11.length → parseFloatGo b10 = some q10 → parseFloatGo b11 = some q11 → 0 < b12.length →
      0 < b13.length → 0 < b14.length → 0 < b15.length → 0 < b16.length →
      0 < b17.length → b18.length = 0 →
      SmartPayCC.validateSmartPay
          [b0, b1, b2, b3, b4, b5, b6, b7, b8, b9, b10, b11, b12, b13, b14, b15, b16, b17, b18, b19] =
        Except.error (GoErr.msg "19th argument must be a non-empty string")) ∧
    (∀ b0 b1 b2 b3 b4 b5 b6 b7 b8 b9 b10 b11 b12 b13 b14 b15 b16 b17 b18 b19 q3 q10 q11 q15 q17,
      0 < b0.length → 0 < b1.length → 0 < b2.length → 0 < b3.length →
      0 < b4.length → parseFloatGo b3 = some q3 → 0 < b5.length → 0 < b6.length →
      0 < b7.length → 0 < b8.length → 0 < b9.length → 0 < b10.length →
      0 < b11.length → parseFloatGo b10 = some q10 → parseFloatGo b11 = some q11 → 0 < b12.length →
      0 < b13.length → 0 < b14.length → 0 < b15.length → 0 < b16.length →
      0 < b17.length → 0 < b18.length → parseFloatGo b15 = some q15 → parseFloatGo b17 = some q17 →
      b19.length = 0 →
      SmartPayCC.validateSmartPay
          [b0, b1, b2, b3, b4, b5, b6, b7, b8, b9, b10, b11, b12, b13, b14, b15, b16, b17, b18, b19] =
        Except.error (GoErr.msg "20th argument must be a non-empty string")) ∧
    (∀ b0 b1 b2 b3 b4 b5 b6 b7 b8 b9 b10 b11 b12 b13 b14 b15 b16 b17 b18 b19,
      0 < b0.length → 0 < b1.length → 0 < b2.length → 0 < b3.length →
      0 < b4.length → parseFloatGo b3 = none →
      SmartPayCC.validateSmartPay
          [b0, b1, b2, b3, b4, b5, b6, b7, b8, b9, b10, b11, b12, b13, b14, b15, b16, b17, b18, b19] =
        Except.error (GoErr.msg "3rd argument must be a Floating Point")) ∧
    (∀ b0 b1 b2 b3 b4 b5 b6 b7 b8 b9 b10 b11 b12 b13 b14 b15 b16 b17 b18 b19 q3 q10,
      0 < b0.length → 0 < b1.length → 0 < b2.length → 0 < b3.length →
      0 < b4.length → parseFloatGo b3 = some q3 → 0 < b5.length → 0 < b6.length →
      0 < b7.length → 0 < b8.length → 0 < b9.length → 0 < b10.length →
      0 < b11.length → parseFloatGo b10 = some q10 → parseFloatGo b11 = none →
      SmartPayCC.validateSmartPay
          [b0, b1, b2, b3, b4, b5, b6, b7, b8, b9, b10, b11, b12, b13, b14, b15, b16, b17, b18, b19] =
        Except.error (GoErr.msg "11 argument must be a Floating Point")) ∧
    (∀ b0 b1 b2 b3 b4 b5 b6 b7 b8 b9 b10 b11 b12 b13 b14 b15 b16 b17 b18 b19 q3 q10 q11,
      0 < b0.length → 0 < b1.length → 0 < b2.length → 0 < b3.length →
      0 < b4.length → parseFloatGo b3 = some q3 → 0 < b5.length → 0 < b6.length →
      0 < b7.length → 0 < b8.length → 0 < b9.length → 0 < b10.length →
      0 < b11.length → parseFloatGo b10 = some q10 → parseFloatGo b11 = some q11 → 0 < b12.length →
      0 < b13.length → 0 < b14.length → 0 < b15.length → 0 < b16.length →
      0 < b17.length → 0 < b18.length → parseFloatGo b15 = none →
      SmartPayCC.validateSmartPay
          [b0, b1, b2, b3, b4, b5, b6, b7, b8, b9, b10, b11, b12, b13, b14, b15, b16, b17, b18, b19] =
        Except.error (GoErr.msg "15 argument must be a Floating Point")) ∧
    (∀ b0 b1 b2 b3 b4 b5 b6 b7 b8 b9 b10 b11 b12 b13 b14 b15 b16 b17 b18 b19 q3 q10 q11 q15,
      0 < b0.length → 0 < b1.length → 0 < b2.length → 0 < b3.length →
      0 < b4.length → parseFloatGo b3 = some q3 → 0 < b5.length → 0 < b6.length →
      0 < b7.length → 0 < b8.length → 0 < b9.length → 0 < b10.length →
      0 < b11.length → parseFloatGo b10 = some q10 → parseFloatGo b11 = some q11 → 0 < b12.length →
      0 < b13.length → 0 < b14.length → 0 < b15.length → 0 < b16.length →
      0 < b17.length → 0 < b18.length → parseFloatGo b15 = some q15 → parseFloatGo b17 = none →
      SmartPayCC.validateSmartPay
          [b0, b1, b2, b3, b4, b5, b6, b7, b8, b9, b10, b11, b12, b13, b14, b15, b16, b17, b18, b19] =
        Except.error (GoErr.msg "17 argument must be a Floating Point")) := by
  refine ⟨?_, ?_, ?_, ?_, ?_, ?_, ?_, ?_, ?_, ?_, ?_, ?_, ?_, ?_, ?_, ?_, ?_, ?_, ?_, ?_, ?_, ?_, ?_, ?_, ?_, ?_, ?_, ?_, ?_, ?_, ?_⟩
  · intro a0 a1 a2 a3 a4 h0
    simp [PaymentCC.validatePayment, Nat.le_of_eq h0]
  · intro a0 a1 a2 a3 a4 h0 h1
    simp [PaymentCC.validatePayment, Nat.not_le.mpr h0, Nat.le_of_eq h1]
  · intro a0 a1 a2 a3 a4 h0 h1 h2
    simp [PaymentCC.validatePayment, Nat.not_le.mpr h0, Nat.not_le.mpr h1, Nat.le_of_eq h2]
  · intro a0 a1 a2 a3 a4 h0 h1 h2 h3
    simp [PaymentCC.validatePayment, Nat.not_le.mpr h0, Nat.not_le.mpr h1, Nat.not_le.mpr h2,
      Nat.le_of_eq h3]
  · intro a0 a1 a2 a3 a4 h0 h1 h2 h3 h4
    simp [PaymentCC.validatePayment, Nat.not_le.mpr h0, Nat.not_le.mpr h1, Nat.not_le.mpr h2,
      Nat.not_le.mpr h3, Nat.le_of_eq h4]
  · intro a0 a1 a2 a3 a4 h0 h1 h2 h3 h4 hn
    simp [PaymentCC.validatePayment, Nat.not_le.mpr h0, Nat.not_le.mpr h1, Nat.not_le.mpr h2,
      Nat.not_le.mpr h3, Nat.not_le.mpr h4, hn]
  · intro b0 b1 b2 b3 b4 b5 b6 b7 b8 b9 b10 b11 b12 b13 b14 b15 b16 b17 b18 b19 q3
      h0 h1 h2 h3 h4 h5 h6 h7 h8 h9 h10 h11 hp3 hp10
    simp [SmartPayCC.validateSmartPay, argAt, Nat.not_le.mpr h0, Nat.not_le.mpr h1,
      Nat.not_le.mpr h2, Nat.not_le.mpr h3, Nat.not_le.mpr h4, Nat.not_le.mpr h5,
      Nat.not_le.mpr h6, Nat.not_le.mpr h7, Nat.not_le.mpr h8, Nat.not_le.mpr h9,
      Nat.not_le.mpr h10, Nat.not_le.mpr h11, hp3, hp10]
  · intro b0 b1 b2 b3 b4 b5 b6 b7 b8 b9 b10 b11 b12 b13 b14 b15 b16 b17 b18 b19 hemp
    simp [SmartPayCC.validateSmartPay, argAt, Nat.le_of_eq hemp]
  · intro b0 b1 b2 b3 b4 b5 b6 b7 b8 b9 b10 b11 b12 b13 b14 b15 b16 b17 b18 b19 h0 hemp
    simp [SmartPayCC.validateSmartPay, argAt, Nat.not_le.mpr h0, Nat.le_of_eq hemp]
  · intro b0 b1 b2 b3 b4 b5 b6 b7 b8 b9 b10 b11 b12 b13 b14 b15 b16 b17 b18 b19 h0 h1 hemp
    simp [SmartPayCC.validateSmartPay, argAt, Nat.not_le.mpr h0, Nat.not_le.mpr h1, Nat.le_of_eq hemp]
  · intro b0 b1 b2 b3 b4 b5 b6 b7 b8 b9 b10 b11 b12 b13 b14 b15 b16 b17 b18 b19 h0 h1 h2 hemp
    simp [SmartPayCC.validateSmartPay, argAt, Nat.not_le.mpr h0, Nat.not_le.mpr h1, Nat.not_le.mpr h2, Nat.le_of_eq hemp]
  · intro b0 b1 b2 b3 b4 b5 b6 b7 b8 b9 b10 b11 b12 b13 b14 b15 b16 b17 b18 b19 h0 h1 h2 h3 hemp
    simp [SmartPayCC.validateSmartPay, argAt, Nat.not_le.mpr h0, Nat.not_le.mpr h1, Nat.not_le.mpr h2, Nat.not_le.mpr h3, Nat.le_of_eq hemp]
  · intro b0 b1 b2 b3 b4 b5 b6 b7 b8 b9 b10 b11 b12 b13 b14 b15 b16 b17 b18 b19 q3 h0 h1 h2 h3 h4 hp3 hemp
    simp [SmartPayCC.validateSmartPay, argAt, Nat.not_le.mpr h0, Nat.not_le.mpr h1, Nat.not_le.mpr h2, Nat.not_le.mpr h3, Nat.not_le.mpr h4, hp3, Nat.le_of_eq hemp]
  · intro b0 b1 b2 b3 b4 b5 b6 b7 b8 b9 b10 b11 b12 b13 b14 b15 b16 b17 b18 b19 q3 h0 h1 h2 h3 h4 hp3 h5 hemp
    simp [SmartPayCC.validateSmartPay, argAt, Nat.not_le.mpr h0, Nat.not_le.mpr h1, Nat.not_le.mpr h2, Nat.not_le.mpr h3, Nat.not_le.mpr h4, hp3, Nat.not_le.mpr h5, Nat.le_of_eq hemp]
  · intro b0 b1 b2 b3 b4 b5 b6 b7 b8 b9 b10 b11 b12 b13 b14 b15 b16 b17 b18 b19 q3 h0 h1 h2 h3 h4 hp3 h5 h6 hemp
    simp [SmartPayCC.validateSmartPay, argAt, Nat.not_le.mpr h0, Nat.not_le.mpr h1, Nat.not_le.mpr h2, Nat.not_le.mpr h3, Nat.not_le.mpr h4, hp3, Nat.not_le.mpr h5, Nat.not_le.mpr h6, Nat.le_of_eq hemp]
  · intro b0 b1 b2 b3 b4 b5 b6 b7 b8 b9 b10 b11 b12 b13 b14 b15 b16 b17 b18 b19 q3 h0 h1 h2 h3 h4 hp3 h5 h6 h7 hemp
    simp [SmartPayCC.validateSmartPay, argAt, Nat.not_le.mpr h0, Nat.not_le.mpr h1, Nat.not_le.mpr h2, Nat.not_le.mpr h3, Nat.not_le.mpr h4, hp3, Nat.not_le.mpr h5, Nat.not_le.mpr h6, Nat.not_le.mpr h7, Nat.le_of_eq hemp]
  · intro b0 b1 b2 b3 b4 b5 b6 b7 b8 b9 b10 b11 b12 b13 b14 b15 b16 b17 b18 b19 q3 h0 h1 h2 h3 h4 hp3 h5 h6 h7 h8 hemp
    simp [SmartPayCC.validateSmartPay, argAt, Nat.not_le.mpr h0, Nat.not_le.mpr h1, Nat.not_le.mpr h2, Nat.not_le.mpr h3, Nat.not_le.mpr h4, hp3, Nat.not_le.mpr h5, Nat.not_le.mpr h6, Nat.not_le.mpr h7, Nat.not_le.mpr h8, Nat.le_of_eq hemp]
  · intro b0 b1 b2 b3 b4 b5 b6 b7 b8 b9 b10 b11 b12 b13 b14 b15 b16 b17 b18 b19 q3 h0 h1 h2 h3 h4 hp3 h5 h6 h7 h8 h9 hemp
    simp [SmartPayCC.validateSmartPay, argAt, Nat.not_le.mpr h0, Nat.not_le.mpr h1, Nat.not_le.mpr h2, Nat.not_le.mpr h3, Nat.not_le.mpr h4, hp3, Nat.not_le.mpr h5, Nat.not_le.mpr h6, Nat.not_le.mpr h7, Nat.not_le.mpr h8, Nat.not_le.mpr h9, Nat.le_of_eq hemp]
  · intro b0 b1 b2 b3 b4 b5 b6 b7 b8 b9 b10 b11 b12 b13 b14 b15 b16 b17 b18 b19 q3 h0 h1 h2 h3 h4 hp3 h5 h6 h7 h8 h9 h10 hemp
    simp [SmartPayCC.validateSmartPay, argAt, Nat.not_le.mpr h0, Nat.not_le.mpr h1, Nat.not_le.mpr h2, Nat.not_le.mpr h3, Nat.not_le.mpr h4, hp3, Nat.not_le.mpr h5, Nat.not_le.mpr h6, Nat.not_le.mpr h7, Nat.not_le.mpr h8, Nat.not_le.mpr h9, Nat.not_le.mpr h10, Nat.le_of_eq hemp]
  · intro b0 b1 b2 b3 b4 b5 b6 b7 b8 b9 b10 b11 b12 b13 b14 b15 b16 b17 b18 b19 q3 q10 q11 h0 h1 h2 h3 h4 hp3 h5 h6 h7 h8 h9 h10 h11 hp10 hp11 hemp
    simp [SmartPayCC.validateSmartPay, argAt, Nat.not_le.mpr h0, Nat.not_le.mpr h1, Nat.not_le.mpr h2, Nat.not_le.mpr h3, Nat.not_le.mpr h4, hp3, Nat.not_le.mpr h5, Nat.not_le.mpr h6, Nat.not_le.mpr h7, Nat.not_le.mpr h8, Nat.not_le.mpr h9, Nat.not_le.mpr h10, Nat.not_le.mpr h11, hp10, hp11, Nat.le_of_eq hemp]
  · intro b0 b1 b2 b3 b4 b5 b6 b7 b8 b9 b10 b11 b12 b13 b14 b15 b16 b17 b18 b19 q3 q10 q11 h0 h1 h2 h3 h4 hp3 h5 h6 h7 h8 h9 h10 h11 hp10 hp11 h12 hemp
    simp [SmartPayCC.validateSmartPay, argAt, Nat.not_le.mpr h0, Nat.not_le.mpr h1, Nat.not_le.mpr h2, Nat.not_le.mpr h3, Nat.not_le.mpr h4, hp3, Nat.not_le.mpr h5, Nat.not_le.mpr h6, Nat.not_le.mpr h7, Nat.not_le.mpr h8, Nat.not_le.mpr h9, Nat.not_le.mpr h10, Nat.not_le.mpr h11, hp10, hp11, Nat.not_le.mpr h12, Nat.le_of_eq hemp]
  · intro b0 b1 b2 b3 b4 b5 b6 b7 b8 b9 b10 b11 b12 b13 b14 b15 b16 b17 b18 b19 q3 q10 q11 h0 h1 h2 h3 h4 hp3 h5 h6 h7 h8 h9 h10 h11 hp10 hp11 h12 h13 hemp
    simp [SmartPayCC.validateSmartPay, argAt, Nat.not_le.mpr h0, Nat.not_le.mpr h1, Nat.not_le.mpr h2, Nat.not_le.mpr h3, Nat.not_le.mpr h4, hp3, Nat.not_le.mpr h5, Nat.not_le.mpr h6, Nat.not_le.mpr h7, Nat.not_le.mpr h8, Nat.not_le.mpr h9, Nat.not_le.mpr h10, Nat.not_le.mpr h11, hp10, hp11, Nat.not_le.mpr h12, Nat.not_le.mpr h13, Nat.le_of_eq hemp]
  · intro b0 b1 b2 b3 b4 b5 b6 b7 b8 b9 b10 b11 b12 b13 b14 b15 b16 b17 b18 b19 q3 q10 q11 h0 h1 h2 h3 h4 hp3 h5 h6 h7 h8 h9 h10 h11 hp10 hp11 h12 h13 h14 hemp
    simp [SmartPayCC.validateSmartPay, argAt, Nat.not_le.mpr h0, Nat.not_le.mpr h1, Nat.not_le.mpr h2, Nat.not_le.mpr h3, Nat.not_le.mpr h4, hp3, Nat.not_le.mpr h5, Nat.not_le.mpr h6, Nat.not_le.mpr h7, Nat.not_le.mpr h8, Nat.not_le.mpr h9, Nat.not_le.mpr h10, Nat.not_le.mpr h11, hp10, hp11, Nat.not_le.mpr h12, Nat.not_le.mpr h13, Nat.not_le.mpr h14, Nat.le_of_eq hemp]
  · intro b0 b1 b2 b3 b4 b5 b6 b7 b8 b9 b10 b11 b12 b13 b14 b15 b16 b17 b18 b19 q3 q10 q11 h0 h1 h2 h3 h4 hp3 h5 h6 h7 h8 h9 h10 h11 hp10 hp11 h12 h13 h14 h15 hemp
    simp [SmartPayCC.validateSmartPay, argAt, Nat.not_le.mpr h0, Nat.not_le.mpr h1, Nat.not_le.mpr h2, Nat.not_le.mpr h3, Nat.not_le.mpr h4, hp3, Nat.not_le.mpr h5, Nat.not_le.mpr h6, Nat.not_le.mpr h7, Nat.not_le.mpr h8, Nat.not_le.mpr h9, Nat.not_le.mpr h10, Nat.not_le.mpr h11, hp10, hp11, Nat.not_le.mpr h12, Nat.not_le.mpr h13, Nat.not_le.mpr h14, Nat.not_le.mpr h15, Nat.le_of_eq hemp]
  · intro b0 b1 b2 b3 b4 b5 b6 b7 b8 b9 b10 b11 b12 b13 b14 b15 b16 b17 b18 b19 q3 q10 q11 h0 h1 h2 h3 h4 hp3 h5 h6 h7 h8 h9 h10 h11 hp10 hp11 h12 h13 h14 h15 h16 hemp
    simp [SmartPayCC.validateSmartPay, argAt, Nat.not_le.mpr h0, Nat.not_le.mpr h1, Nat.not_le.mpr h2, Nat.not_le.mpr h3, Nat.not_le.mpr h4, hp3, Nat.not_le.mpr h5, Nat.not_le.mpr h6, Nat.not_le.mpr h7, Nat.not_le.mpr h8, Nat.not_le.mpr h9, Nat.not_le.mpr h10, Nat.not_le.mpr h11, hp10, hp11, Nat.not_le.mpr h12, Nat.not_le.mpr h13, Nat.not_le.mpr h14, Nat.not_le.mpr h15, Nat.not_le.mpr h16, Nat.le_of_eq hemp]
  · intro b0 b1 b2 b3 b4 b5 b6 b7 b8 b9 b10 b11 b12 b13 b14 b15 b16 b17 b18 b19 q3 q10 q11 h0 h1 h2 h3 h4 hp3 h5 h6 h7 h8 h9 h10 h11 hp10 hp11 h12 h13 h14 h15 h16 h17 hemp
    simp [SmartPayCC.validateSmartPay, argAt, Nat.not_le.mpr h0, Nat.not_le.mpr h1, Nat.not_le.mpr h2, Nat.not_le.mpr h3, Nat.not_le.mpr h4, hp3, Nat.not_le.mpr h5, Nat.not_le.mpr h6, Nat.not_le.mpr h7, Nat.not_le.mpr h8, Nat.not_le.mpr h9, Nat.not_le.mpr h10, Nat.not_le.mpr h11, hp10, hp11, Nat.not_le.mpr h12, Nat.not_le.mpr h13, Nat.not_le.mpr h14, Nat.not_le.mpr h15, Nat.not_le.mpr h16, Nat.not_le.mpr h17, Nat.le_of_eq hemp]
  · intro b0 b1 b2 b3 b4 b5 b6 b7 b8 b9 b10 b11 b12 b13 b14 b15 b16 b17 b18 b19 q3 q10 q11 q15 q17 h0 h1 h2 h3 h4 hp3 h5 h6 h7 h8 h9 h10 h11 hp10 hp11 h12 h13 h14 h15 h16 h17 h18 hp15 hp17 hemp
    simp [SmartPayCC.validateSmartPay, argAt, Nat.not_le.mpr h0, Nat.not_le.mpr h1, Nat.not_le.mpr h2, Nat.not_le.mpr h3, Nat.not_le.mpr h4, hp3, Nat.not_le.mpr h5, Nat.not_le.mpr h6, Nat.not_le.mpr h7, Nat.not_le.mpr h8, Nat.not_le.mpr h9, Nat.not_le.mpr h10, Nat.not_le.mpr h11, hp10, hp11, Nat.not_le.mpr h12, Nat.not_le.mpr h13, Nat.not_le.mpr h14, Nat.not_le.mpr h15, Nat.not_le.mpr h16, Nat.not_le.mpr h17, Nat.not_le.mpr h18, hp15, hp17, Nat.le_of_eq hemp]
  · intro b0 b1 b2 b3 b4 b5 b6 b7 b8 b9 b10 b11 b12 b13 b14 b15 b16 b17 b18 b19 h0 h1 h2 h3 h4 hnone
    simp [SmartPayCC.validateSmartPay, argAt, Nat.not_le.mpr h0, Nat.not_le.mpr h1, Nat.not_le.mpr h2, Nat.not_le.mpr h3, Nat.not_le.mpr h4, hnone]
  · intro b0 b1 b2 b3 b4 b5 b6 b7 b8 b9 b10 b11 b12 b13 b14 b15 b16 b17 b18 b19 q3 q10 h0 h1 h2 h3 h4 hp3 h5 h6 h7 h8 h9 h10 h11 hp10 hnone
    simp [SmartPayCC.validateSmartPay, argAt, Nat.not_le.mpr h0, Nat.not_le.mpr h1, Nat.not_le.mpr h2, Nat.not_le.mpr h3, Nat.not_le.mpr h4, hp3, Nat.not_le.mpr h5, Nat.not_le.mpr h6, Nat.not_le.mpr h7, Nat.not_le.mpr h8, Nat.not_le.mpr h9, Nat.not_le.mpr h10, Nat.not_le.mpr h11, hp10, hnone]
  · intro b0 b1 b2 b3 b4 b5 b6 b7 b8 b9 b10 b11 b12 b13 b14 b15 b16 b17 b18 b19 q3 q10 q11 h0 h1 h2 h3 h4 hp3 h5 h6 h7 h8 h9 h10 h11 hp10 hp11 h12 h13 h14 h15 h16 h17 h18 hnone
    simp [SmartPayCC.validateSmartPay, argAt, Nat.not_le.mpr h0, Nat.not_le.mpr h1, Nat.not_le.mpr h2, Nat.not_le.mpr h3, Nat.not_le.mpr h4, hp3, Nat.not_le.mpr h5, Nat.not_le.mpr h6, Nat.not_le.mpr h7, Nat.not_le.mpr h8, Nat.not_le.mpr h9, Nat.not_le.mpr h10, Nat.not_le.mpr h11, hp10, hp11, Nat.not_le.mpr h12, Nat.not_le.mpr h13, Nat.not_le.mpr h14, Nat.not_le.mpr h15, Nat.not_le.mpr h16, Nat.not_le.mpr h17, Nat.not_le.mpr h18, hnone]
  · intro b0 b1 b2 b3 b4 b5 b6 b7 b8 b9 b10 b11 b12 b13 b14 b15 b16 b17 b18 b19 q3 q10 q11 q15 h0 h1 h2 h3 h4 hp3 h5 h6 h7 h8 h9 h10 h11 hp10 hp11 h12 h13 h14 h15 h16 h17 h18 hp15 hnone
    simp [SmartPayCC.validateSmartPay, argAt, Nat.not_le.mpr h0, Nat.not_le.mpr h1, Nat.not_le.mpr h2, Nat.not_le.mpr h3, Nat.not_le.mpr h4, hp3, Nat.not_le.mpr h5, Nat.not_le.mpr h6, Nat.not_le.mpr h7, Nat.not_le.mpr h8, Nat.not_le.mpr h9, Nat.not_le.mpr h10, Nat.not_le.mpr h11, hp10, hp11, Nat.not_le.mpr h12, Nat.not_le.mpr h13, Nat.not_le.mpr h14, Nat.not_le.mpr h15, Nat.not_le.mpr h16, Nat.not_le.mpr h17, Nat.not_le.mpr h18, hp15, hnone]

/-- C8 amended-claim witness at a concrete input. -/
theorem c8_positions_witness :
    PaymentCC.validatePayment ["tx1", "a", "b", "xx", "usd"] =
      Except.error (GoErr.msg "3rd argument must be a numeric string") :=
  c8_positions.2.2.2.2.2.1 "tx1" "a" "b" "xx" "usd"
    (by decide) (by decide) (by decide) (by decide) (by decide) (by decide)

/-- C9: the Delete index-removal loop removes exactly the first occurrence
of the id, preserving the relative order of everything else; when the id is
absent the sequence is unchanged; and Delete of a key that is not in the
store still succeeds. -/
theorem c9_index_remove :
    (∀ (l : List String) (name : String), name ∉ l → Chain.removeFirstGo l name = l) ∧
    (∀ (l1 l2 : List String) (name : String), name ∉ l1 →
      Chain.removeFirstGo (l1 ++ name :: l2) name = l1 ++ l2) ∧
    (∀ st name, name ∉ st.failDel → smartPayIndexStr ∉ st.failGet →
      lookupState st.state name = none →
      (Chain.Delete st [name]).1 = Except.ok none) := by
  refine ⟨?_, ?_, ?_⟩
  · intro l name
    induction l with
    | nil => intro _; rfl
    | cons x xs ih =>
      intro h
      simp only [List.mem_cons, not_or] at h
      have hx : ¬ x = name := fun hh => h.1 hh.symm
      simp [Chain.removeFirstGo, hx, ih h.2]
  · intro l1 l2 name
    induction l1 with
    | nil =>
      intro _
      simp [Chain.removeFirstGo]
    | cons x xs ih =>
      intro h
      simp only [List.mem_cons, not_or] at h
      have hx : ¬ x = name := fun hh => h.1 hh.symm
      simp [Chain.removeFirstGo, hx, ih h.2]
  · intro st name h1 h2 _
    by_cases h3 : smartPayIndexStr ∈ st.failPut <;>
      simp [Chain.Delete, stubDel, stubGet, stubPut, h1, h2, h3]

/-- C9 witness at concrete inputs. -/
theorem c9_witness :
    Chain.removeFirstGo ["a", "b"] "c" = ["a", "b"] ∧
    Chain.removeFirstGo ["a", "c", "b", "c"] "c" = ["a", "b", "c"] ∧
    (Chain.Delete emptyStub ["ghost"]).1 = Except.ok none :=
  ⟨c9_index_remove.1 ["a", "b"] "c" (by decide),
   c9_index_remove.2.1 ["a"] ["b", "c"] "c" (by decide),
   c9_index_remove.2.2 emptyStub "ghost" (by decide) (by decide) (by decide)⟩

/-- C10: any function name outside the dispatch tables makes Invoke (in
both revisions) and Query return the unknown-function error with the
ledger state unchanged. -/
theorem c10_unknown_function :
    (∀ st fn args, fn ≠ "init" → fn ≠ "delete" → fn ≠ "write" → fn ≠ "initSmartPay" →
      fn ≠ "jsonWrite" →
      SmartPayCC.Invoke st fn args =
        (Except.error (GoErr.msg "Received unknown function invocation"), st)) ∧
    (∀ st fn args, fn ≠ "init" → fn ≠ "delete" → fn ≠ "write" → fn ≠ "initPayment" →
      fn ≠ "newEcrire" →
      PaymentCC.Invoke st fn args =
        (Except.error (GoErr.msg "Received unknown function invocation"), st)) ∧
    (∀ st fn args, fn ≠ "read" →
      Chain.Query st fn args = (Except.error (GoErr.msg "Received unknown function query"), st)) := by
  refine ⟨?_, ?_, ?_⟩
  · intro st fn args h1 h2 h3 h4 h5
    simp [SmartPayCC.Invoke, h1, h2, h3, h4, h5]
  · intro st fn args h1 h2 h3 h4 h5
    simp [PaymentCC.Invoke, h1, h2, h3, h4, h5]
  · intro st fn args h1
    simp [Chain.Query, h1]

/-- C10 witness at a concrete input. -/
theorem c10_witness :
    SmartPayCC.Invoke emptyStub "bogus" [] =
      (Except.error (GoErr.msg "Received unknown function invocation"), emptyStub) :=
  c10_unknown_function.1 emptyStub "bogus" []
    (by decide) (by decide) (by decide) (by decide) (by decide)
